import Mathlib

/-!
# Verification of the lunisolar-calendar / Bazi engine

Shallow embedding of the C sources of the `lunisolar-calendar` repository
(`src/ports/lunisolar-emcc/lunisolar.c`, `src/ports/lunisolar-emcc/bazi.c`,
`src/wasm/lunisolar-emcc/lunisolar.c`, `src/wasm/lunisolar-emcc/ephemeris.c`)
together with proofs about the embedded functions.

Conventions of the embedding:
* C `long long` / `int` arithmetic is modelled on `ℤ`; C truncating division
  `/` on integers is `Int.tdiv`, `%` is `Int.tmod`.
* C `unsigned` arithmetic is modelled on `ℕ`; every subtraction performed by
  the source on `unsigned` values is applied to operands where the source
  guarantees no wrap-around, so `ℕ` truncated subtraction agrees with it.
* `double` timestamps are modelled on `ℤ` (milliseconds / seconds).  All
  inputs considered are integral, and the source only multiplies them by
  1000, floors and compares them, which is exact on integral doubles of the
  relevant magnitude, so the integer model is faithful on that domain.
  The fractional decimal hour in `hour_ganzhi` is modelled on `ℚ`.
-/

namespace Lunisolar

/-! ## CalendarArithmetic: `civil_from_days` / `days_from_civil`
    (src/ports/lunisolar-emcc/lunisolar.c lines 115-136; identical text in
    src/wasm/lunisolar-emcc/lunisolar.c) -/

/-- Embeds `civil_from_days` (Howard Hinnant's algorithm as written in the C
source).  Returns `(year, month, day)`. -/
def civil_from_days (days : ℤ) : ℤ × ℕ × ℕ :=
  let z := days + 719468
  let era := (if 0 ≤ z then z else z - 146096).tdiv 146097
  let doe : ℕ := (z - era * 146097).toNat
  let yoe : ℕ := (doe - doe / 1460 + doe / 36524 - doe / 146096) / 365
  let yr : ℤ := (yoe : ℤ) + era * 400
  let doy : ℕ := doe - (365 * yoe + yoe / 4 - yoe / 100)
  let mp : ℕ := (5 * doy + 2) / 153
  let d : ℕ := doy - (153 * mp + 2) / 5 + 1
  let m : ℕ := if mp < 10 then mp + 3 else mp - 9
  (if m ≤ 2 then yr + 1 else yr, m, d)

/-- Embeds `days_from_civil` from the same file. -/
def days_from_civil (y : ℤ) (m d : ℕ) : ℤ :=
  let yr : ℤ := if m ≤ 2 then y - 1 else y
  let era := (if 0 ≤ yr then yr else yr - 399).tdiv 400
  let yoe : ℕ := (yr - era * 400).toNat
  let m_adj : ℕ := if 2 < m then m - 3 else m + 9
  let doy : ℕ := (153 * m_adj + 2) / 5 + d - 1
  let doe : ℕ := yoe * 365 + yoe / 4 - yoe / 100 + doy
  era * 146097 + (doe : ℤ) - 719468

/-- The C idiom `(z >= 0 ? z : z - 146096) / 146097` (truncating division)
computes the floor (= Euclidean, divisor positive) quotient by 146097. -/
theorem tdiv_trick_146097 (z : ℤ) :
    (if 0 ≤ z then z else z - 146096).tdiv 146097 = z / 146097 := by
  split_ifs with h
  · exact Int.tdiv_eq_ediv h (by norm_num)
  · have h2 : (0:ℤ) ≤ 146096 - z := by omega
    have h3 : (z - 146096).tdiv 146097 = -((146096 - z).tdiv 146097) := by
      rw [← Int.neg_tdiv]
      norm_num
    rw [h3, Int.tdiv_eq_ediv h2 (by norm_num)]
    omega

/-- The C idiom `(yr >= 0 ? yr : yr - 399) / 400` computes the floor
quotient by 400. -/
theorem tdiv_trick_400 (yr : ℤ) :
    (if 0 ≤ yr then yr else yr - 399).tdiv 400 = yr / 400 := by
  split_ifs with h
  · exact Int.tdiv_eq_ediv h (by norm_num)
  · have h2 : (0:ℤ) ≤ 399 - yr := by omega
    have h3 : (yr - 399).tdiv 400 = -((399 - yr).tdiv 400) := by
      rw [← Int.neg_tdiv]
      norm_num
    rw [h3, Int.tdiv_eq_ediv h2 (by norm_num)]
    omega

/-! ### Correctness of the year-of-era formula -/

/-- The Hinnant year-of-era formula, extracted from `civil_from_days`. -/
def yoeF (doe : ℕ) : ℕ := (doe - doe / 1460 + doe / 36524 - doe / 146096) / 365

/-- Days before (March-based) year-of-era `y`, as recomputed by
`days_from_civil`. -/
def dOfEra (y : ℕ) : ℕ := 365 * y + y / 4 - y / 100

/-- Length in days of the March-based year-of-era `y` (it contains the
February of civil year `y + 1`). -/
def lenEra (y : ℕ) : ℕ :=
  if (y + 1) % 4 = 0 ∧ ((y + 1) % 100 ≠ 0 ∨ y = 399) then 366 else 365

theorem dOfEra_step (y : ℕ) (h : y ≤ 398) : dOfEra (y + 1) = dOfEra y + lenEra y := by
  unfold dOfEra lenEra
  split_ifs with hleap
  · omega
  · omega

theorem dOfEra_mono : ∀ b, b ≤ 399 → ∀ a, a ≤ b → dOfEra a ≤ dOfEra b := by
  intro b
  induction b with
  | zero =>
    intro _ a ha
    have h0 : a = 0 := by omega
    rw [h0]
  | succ n ih =>
    intro hb a ha
    rcases Nat.lt_or_ge a (n + 1) with hlt | hge
    · have h1 := ih (by omega) a (by omega)
      have h2 := dOfEra_step n (by omega)
      omega
    · have h0 : a = n + 1 := by omega
      rw [h0]

set_option maxRecDepth 4000 in
/-- On the last (366th) day slot after a short year the formula does not
return that short year: checked pointwise for the 400 years of an era. -/
theorem yoeF_boundary : ∀ y, y < 400 →
    (¬((y + 1) % 4 = 0 ∧ ((y + 1) % 100 ≠ 0 ∨ y = 399)) →
      yoeF (dOfEra y + 365) ≠ y) := by
  decide

set_option maxHeartbeats 8000000 in
/-- Weak correctness of the year-of-era formula: the year it returns starts
at or before `doe` and within 366 days of it. -/
theorem yoeF_weak (doe : ℕ) (h : doe ≤ 146096) :
    dOfEra (yoeF doe) ≤ doe ∧ doe - dOfEra (yoeF doe) < 366 ∧ yoeF doe ≤ 399 := by
  unfold yoeF dOfEra
  have hq0 : doe / 1460 ≤ 100 := by omega
  set q := doe / 1460 with hqdef
  clear_value q
  interval_cases q <;>
    first
    | omega
    | (rcases Nat.lt_or_ge doe 36524 with hc1 | hc1 <;>
       rcases Nat.lt_or_ge doe 73048 with hc2 | hc2 <;>
       rcases Nat.lt_or_ge doe 109572 with hc3 | hc3 <;>
       omega)

/-- The year-of-era formula inverts `dOfEra`: day `doy` of year-of-era `yoe`
is mapped back to `yoe`. -/
theorem yoeF_unique (yoe doy : ℕ) (h1 : yoe ≤ 399) (h2 : doy < lenEra yoe) :
    yoeF (dOfEra yoe + doy) = yoe := by
  have hD399 : dOfEra yoe ≤ dOfEra 399 := dOfEra_mono 399 (le_refl 399) yoe h1
  have hlen : lenEra yoe ≤ 366 := by
    unfold lenEra
    split_ifs <;> omega
  have hdoe : dOfEra yoe + doy ≤ 146096 := by
    rcases Nat.lt_or_ge yoe 399 with hy | hy
    · have h398 := dOfEra_mono 398 (by omega) yoe (by omega)
      have h398v : dOfEra 398 = 145366 := by decide
      omega
    · have hy399 : yoe = 399 := by omega
      rw [hy399] at h2 ⊢
      have hl : lenEra 399 = 366 := by decide
      have hv : dOfEra 399 = 145731 := by decide
      omega
  have hweak := yoeF_weak (dOfEra yoe + doy) hdoe
  rcases Nat.lt_trichotomy (yoeF (dOfEra yoe + doy)) yoe with hlt | heq | hgt
  · exfalso
    set y' := yoeF (dOfEra yoe + doy) with hy'
    have hstep : dOfEra (y' + 1) = dOfEra y' + lenEra y' := dOfEra_step y' (by omega)
    have hmono : dOfEra (y' + 1) ≤ dOfEra yoe := dOfEra_mono yoe h1 (y' + 1) (by omega)
    by_cases hl : (y' + 1) % 4 = 0 ∧ ((y' + 1) % 100 ≠ 0 ∨ y' = 399)
    · have h366 : lenEra y' = 366 := by
        unfold lenEra
        split_ifs <;> simp_all
      omega
    · have hl365 : lenEra y' = 365 := by
        unfold lenEra
        split_ifs <;> simp_all
      have heq365 : dOfEra yoe + doy = dOfEra y' + 365 := by omega
      have hbad := yoeF_boundary y' (by omega) hl
      rw [← heq365] at hbad
      exact hbad hy'.symm
  · exact heq
  · exfalso
    have hstep : dOfEra (yoe + 1) = dOfEra yoe + lenEra yoe := dOfEra_step yoe (by omega)
    have hmono : dOfEra (yoe + 1) ≤ dOfEra (yoeF (dOfEra yoe + doy)) :=
      dOfEra_mono (yoeF (dOfEra yoe + doy)) (by omega) (yoe + 1) (by omega)
    omega

-- ### Part 1: days_from_civil ∘ civil_from_days = id

theorem month_slot_facts (doy : ℕ) (h : doy < 366) :
    (5 * doy + 2) / 153 ≤ 11 ∧
    (153 * ((5 * doy + 2) / 153) + 2) / 5 ≤ doy ∧
    doy - (153 * ((5 * doy + 2) / 153) + 2) / 5 + 1 ≤ 31 ∧
    1 ≤ doy - (153 * ((5 * doy + 2) / 153) + 2) / 5 + 1 := by
  omega

theorem days_from_civil_of_civil_from_days (n : ℤ) :
    days_from_civil (civil_from_days n).1 (civil_from_days n).2.1
      (civil_from_days n).2.2 = n := by
  unfold civil_from_days days_from_civil
  simp only [tdiv_trick_146097, tdiv_trick_400]
  have hdoe : ((n + 719468) - (n + 719468) / 146097 * 146097).toNat ≤ 146096 := by
    omega
  have hw := yoeF_weak _ hdoe
  unfold yoeF dOfEra at hw
  set doe : ℕ := ((n + 719468) - (n + 719468) / 146097 * 146097).toNat with hdoedef
  have hzdoe : (n + 719468) / 146097 * 146097 + (doe : ℤ) = n + 719468 := by omega
  clear_value doe
  clear hdoedef
  set yoe : ℕ := (doe - doe / 1460 + doe / 36524 - doe / 146096) / 365 with hyoedef
  clear_value yoe
  clear hyoedef
  set doy : ℕ := doe - (365 * yoe + yoe / 4 - yoe / 100) with hdoydef
  have hdoy2 : doy + (365 * yoe + yoe / 4 - yoe / 100) = doe := by omega
  have hm := month_slot_facts doy (by omega)
  clear_value doy
  clear hdoydef
  set mp : ℕ := (5 * doy + 2) / 153 with hmpdef
  clear_value mp
  set dd : ℕ := doy - (153 * mp + 2) / 5 + 1 with hdddef
  have hdd2 : (153 * mp + 2) / 5 + dd - 1 = doy := by omega
  have hdd3 : 1 ≤ dd := by omega
  clear_value dd
  clear hdddef hmpdef
  have hera2 : ((yoe : ℤ) + (n + 719468) / 146097 * 400) / 400 =
      (n + 719468) / 146097 := by omega
  have hynat : ((yoe : ℤ)).toNat = yoe := by omega
  rcases Nat.lt_or_ge mp 10 with hmp | hmp
  · rw [if_pos hmp, if_neg (by omega : ¬ mp + 3 ≤ 2), if_neg (by omega : ¬ mp + 3 ≤ 2),
      if_pos (by omega : 2 < mp + 3), Nat.add_sub_cancel, hera2,
      (by ring : (yoe : ℤ) + (n + 719468) / 146097 * 400 -
        (n + 719468) / 146097 * 400 = (yoe : ℤ)), hynat]
    omega
  · rw [if_neg (by omega : ¬ mp < 10), if_pos (by omega : mp - 9 ≤ 2),
      if_pos (by omega : mp - 9 ≤ 2), if_neg (by omega : ¬ 2 < mp - 9),
      (by omega : mp - 9 + 9 = mp),
      (by ring : (yoe : ℤ) + (n + 719468) / 146097 * 400 + 1 - 1 =
        (yoe : ℤ) + (n + 719468) / 146097 * 400), hera2,
      (by ring : (yoe : ℤ) + (n + 719468) / 146097 * 400 -
        (n + 719468) / 146097 * 400 = (yoe : ℤ)), hynat]
    omega

-- ### Part 2: civil_from_days ∘ days_from_civil = id on valid dates

/-- Gregorian leap-year test (statement-side helper for date validity). -/
def isLeapYear (y : ℤ) : Prop := (y % 4 = 0 ∧ y % 100 ≠ 0) ∨ y % 400 = 0

instance (y : ℤ) : Decidable (isLeapYear y) := by unfold isLeapYear; infer_instance

/-- Number of days of month `m` of Gregorian year `y`. -/
def daysInMonth (y : ℤ) (m : ℕ) : ℕ :=
  if m = 2 then (if isLeapYear y then 29 else 28)
  else if m = 4 ∨ m = 6 ∨ m = 9 ∨ m = 11 then 30 else 31

/-- A well-formed proleptic Gregorian civil date. -/
def ValidDate (y : ℤ) (m d : ℕ) : Prop :=
  1 ≤ m ∧ m ≤ 12 ∧ 1 ≤ d ∧ d ≤ daysInMonth y m

instance (y : ℤ) (m d : ℕ) : Decidable (ValidDate y m d) := by
  unfold ValidDate
  infer_instance

theorem slot_recover (ma d : ℕ) (h1 : ma ≤ 11) (h2 : 1 ≤ d)
    (h3 : d ≤ (153 * (ma + 1) + 2) / 5 - (153 * ma + 2) / 5) :
    (5 * ((153 * ma + 2) / 5 + d - 1) + 2) / 153 = ma := by
  interval_cases ma <;> omega

theorem civil_from_days_of_days_from_civil (y : ℤ) (m d : ℕ) (hv : ValidDate y m d) :
    civil_from_days (days_from_civil y m d) = (y, m, d) := by
  obtain ⟨hm1, hm2, hd1, hd2⟩ := hv
  unfold daysInMonth at hd2
  unfold days_from_civil civil_from_days
  simp only [tdiv_trick_146097, tdiv_trick_400]
  rcases Nat.lt_or_ge 2 m with hm3 | hmle
  · rw [if_neg (by omega : ¬ m ≤ 2), if_pos hm3]
    set era : ℤ := y / 400 with heradef
    set yoe : ℕ := (y - era * 400).toNat with hyoedef
    have hyoe399 : yoe ≤ 399 := by omega
    have hyoeZ : (yoe : ℤ) = y - era * 400 := by omega
    set ma : ℕ := m - 3 with hmadef
    have hma9 : ma ≤ 9 := by omega
    have hmeq : m = ma + 3 := by omega
    have hd31 : d ≤ 31 := by
      split_ifs at hd2 <;> omega
    have hslotm : d ≤ (153 * (m - 3 + 1) + 2) / 5 - (153 * (m - 3) + 2) / 5 := by
      interval_cases m <;> norm_num at hd2 ⊢ <;> omega
    set doy : ℕ := (153 * ma + 2) / 5 + d - 1 with hdoydef
    have hdoy365 : doy < 365 := by omega
    have hlen : doy < lenEra yoe := by
      unfold lenEra
      split_ifs <;> omega
    have hun := yoeF_unique yoe doy hyoe399 hlen
    unfold yoeF dOfEra at hun
    have hrec := slot_recover ma d (by omega) hd1 hslotm
    rw [(by omega : yoe * 365 + yoe / 4 - yoe / 100 + doy =
      365 * yoe + yoe / 4 - yoe / 100 + doy)]
    set X : ℕ := 365 * yoe + yoe / 4 - yoe / 100 + doy with hXdef
    have hX146096 : X ≤ 146096 := by
      have h399 := dOfEra_mono 399 (le_refl 399) yoe hyoe399
      have h399v : dOfEra 399 = 145731 := by decide
      unfold dOfEra at h399
      omega
    rw [(by ring : era * 146097 + (X : ℤ) - 719468 + 719468 = era * 146097 + (X : ℤ))]
    have hera2 : (era * 146097 + (X : ℤ)) / 146097 = era := by omega
    rw [hera2]
    have htoNat : (era * 146097 + (X : ℤ) - era * 146097).toNat = X := by omega
    rw [htoNat, hun]
    have hdoyb : X - (365 * yoe + yoe / 4 - yoe / 100) = doy := by omega
    rw [hdoyb, hrec]
    rw [if_pos (by omega : ma < 10), if_neg (by omega : ¬ ma + 3 ≤ 2)]
    simp only [Prod.mk.injEq]
    refine ⟨by omega, by omega, by omega⟩
  · interval_cases m
    · -- January
      rw [if_pos (by norm_num : (1:ℕ) ≤ 2), if_neg (by norm_num : ¬ (2:ℕ) < 1),
        (by norm_num : (1:ℕ) + 9 = 10)]
      norm_num at hd2
      set era : ℤ := (y - 1) / 400 with heradef
      set yoe : ℕ := (y - 1 - era * 400).toNat with hyoedef
      have hyoe399 : yoe ≤ 399 := by omega
      have hyoeZ : (yoe : ℤ) = y - 1 - era * 400 := by omega
      set doy : ℕ := (153 * 10 + 2) / 5 + d - 1 with hdoydef
      have hdoy365 : doy < 365 := by omega
      have hlen : doy < lenEra yoe := by
        unfold lenEra
        split_ifs <;> omega
      have hun := yoeF_unique yoe doy hyoe399 hlen
      unfold yoeF dOfEra at hun
      have hrec := slot_recover 10 d (by norm_num) hd1 (by omega)
      rw [(by omega : yoe * 365 + yoe / 4 - yoe / 100 + doy =
        365 * yoe + yoe / 4 - yoe / 100 + doy)]
      set X : ℕ := 365 * yoe + yoe / 4 - yoe / 100 + doy with hXdef
      have hX146096 : X ≤ 146096 := by
        have h399 := dOfEra_mono 399 (le_refl 399) yoe hyoe399
        have h399v : dOfEra 399 = 145731 := by decide
        unfold dOfEra at h399
        omega
      rw [(by ring : era * 146097 + (X : ℤ) - 719468 + 719468 = era * 146097 + (X : ℤ))]
      have hera2 : (era * 146097 + (X : ℤ)) / 146097 = era := by omega
      rw [hera2]
      have htoNat : (era * 146097 + (X : ℤ) - era * 146097).toNat = X := by omega
      rw [htoNat, hun]
      have hdoyb : X - (365 * yoe + yoe / 4 - yoe / 100) = doy := by omega
      rw [hdoyb, hrec]
      rw [if_neg (by norm_num : ¬ (10:ℕ) < 10), (by norm_num : (10:ℕ) - 9 = 1),
        if_pos (by norm_num : (1:ℕ) ≤ 2)]
      simp only [Prod.mk.injEq]
      refine ⟨by omega, trivial, by omega⟩
    · -- February
      rw [if_pos (by norm_num : (2:ℕ) ≤ 2), if_neg (by norm_num : ¬ (2:ℕ) < 2),
        (by norm_num : (2:ℕ) + 9 = 11)]
      norm_num at hd2
      set era : ℤ := (y - 1) / 400 with heradef
      set yoe : ℕ := (y - 1 - era * 400).toNat with hyoedef
      have hyoe399 : yoe ≤ 399 := by omega
      have hyoeZ : (yoe : ℤ) = y - 1 - era * 400 := by omega
      set doy : ℕ := (153 * 11 + 2) / 5 + d - 1 with hdoydef
      have hd29 : d ≤ 29 := by
        unfold isLeapYear at hd2
        split_ifs at hd2 <;> omega
      have hlen : doy < lenEra yoe := by
        unfold lenEra isLeapYear at *
        split_ifs at hd2 with hleapy <;> split_ifs with hpat <;> omega
      have hun := yoeF_unique yoe doy hyoe399 hlen
      unfold yoeF dOfEra at hun
      have hrec := slot_recover 11 d (by norm_num) hd1 (by omega)
      rw [(by omega : yoe * 365 + yoe / 4 - yoe / 100 + doy =
        365 * yoe + yoe / 4 - yoe / 100 + doy)]
      set X : ℕ := 365 * yoe + yoe / 4 - yoe / 100 + doy with hXdef
      have hX146096 : X ≤ 146096 := by
        have h399 := dOfEra_mono 399 (le_refl 399) yoe hyoe399
        have h399v : dOfEra 399 = 145731 := by decide
        unfold dOfEra at h399
        have hl : lenEra yoe ≤ 366 := by
          unfold lenEra
          split_ifs <;> omega
        omega
      rw [(by ring : era * 146097 + (X : ℤ) - 719468 + 719468 = era * 146097 + (X : ℤ))]
      have hera2 : (era * 146097 + (X : ℤ)) / 146097 = era := by omega
      rw [hera2]
      have htoNat : (era * 146097 + (X : ℤ) - era * 146097).toNat = X := by omega
      rw [htoNat, hun]
      have hdoyb : X - (365 * yoe + yoe / 4 - yoe / 100) = doy := by omega
      rw [hdoyb, hrec]
      rw [if_neg (by norm_num : ¬ (11:ℕ) < 10), (by norm_num : (11:ℕ) - 9 = 2),
        if_pos (by norm_num : (2:ℕ) ≤ 2)]
      simp only [Prod.mk.injEq]
      refine ⟨by omega, trivial, by omega⟩

/-- C3: for every civil date (year, month 1-12, day valid for that month),
including proleptic negative years, `civil_from_days (days_from_civil y m d)`
returns exactly `(y, m, d)`; and for every integer day number `n`,
`days_from_civil` applied to `civil_from_days n` returns `n`. -/
theorem C3_day_number_roundtrip :
    (∀ n : ℤ, days_from_civil (civil_from_days n).1 (civil_from_days n).2.1
        (civil_from_days n).2.2 = n) ∧
    (∀ (y : ℤ) (m d : ℕ), ValidDate y m d →
        civil_from_days (days_from_civil y m d) = (y, m, d)) :=
  ⟨days_from_civil_of_civil_from_days, civil_from_days_of_days_from_civil⟩

/-- Witness for C3, at day number 19782 (= 2024-02-29), the leap date
2024-02-29 itself, and a proleptic negative-year date -44-03-15
(the Ides of March, 44 BC). -/
theorem C3_day_number_roundtrip_witness :
    (days_from_civil (civil_from_days 19782).1 (civil_from_days 19782).2.1
        (civil_from_days 19782).2.2 = 19782) ∧
    (ValidDate 2024 2 29 ∧
      civil_from_days (days_from_civil 2024 2 29) = (2024, 2, 29)) ∧
    (ValidDate (-44) 3 15 ∧
      civil_from_days (days_from_civil (-44) 3 15) = (-44, 3, 15)) :=
  ⟨C3_day_number_roundtrip.1 19782,
   ⟨by decide, C3_day_number_roundtrip.2 2024 2 29 (by decide)⟩,
   ⟨by decide, C3_day_number_roundtrip.2 (-44) 3 15 (by decide)⟩⟩


/-! ## Sexagenary cycle helper (src/ports/lunisolar-emcc/lunisolar.c 171-178) -/

/-- Embeds `cycle_from_stem_branch`: scans cycles 1..60 and returns the first
one matching both 1-based indices, or 1 if none matches (the C fallback). -/
def cycle_from_stem_branch (stem1 branch1 : ℕ) : ℕ :=
  let s0 := stem1 - 1
  let b0 := branch1 - 1
  match (List.range 60).find? (fun i => i % 10 = s0 ∧ i % 12 = b0) with
  | some i => i + 1
  | none => 1

/-! ## Bazi tables (src/ports/lunisolar-emcc/bazi.c, bazi.h)
    Elements: WOOD=0, FIRE=1, EARTH=2, METAL=3, WATER=4 (bazi.h). -/

/-- `STEM_ELEMENT` table (bazi.c lines 29-32). -/
def STEM_ELEMENT : Fin 10 → Fin 5 := ![0, 0, 1, 1, 2, 2, 3, 3, 4, 4]

/-- `STEM_POLARITY` table (0 = Yang, 1 = Yin). -/
def STEM_POLARITY : Fin 10 → Fin 2 := ![0, 1, 0, 1, 0, 1, 0, 1, 0, 1]

/-- `BRANCH_ELEMENT` table. -/
def BRANCH_ELEMENT : Fin 12 → Fin 5 := ![4, 2, 0, 0, 2, 1, 1, 2, 3, 3, 2, 4]

/-- `BRANCH_HIDDEN_STEMS` together with `BRANCH_HIDDEN_COUNT`: for each
branch, the list of its hidden stems (the C table stores up to 3 slots with
-1 padding and a separate count; the list holds exactly the counted
entries). -/
def BRANCH_HIDDEN_STEMS : Fin 12 → List (Fin 10) :=
  ![[9], [5, 9, 7], [0, 2, 4], [1], [4, 1, 9], [2, 4, 6],
    [3, 5], [5, 3, 1], [6, 8, 4], [7], [4, 7, 3], [8, 0]]

/-- `GEN_MAP`: what each element produces. -/
def GEN_MAP : Fin 5 → Fin 5 := ![1, 2, 3, 4, 0]

/-- `CONTROL_MAP`: what each element controls. -/
def CONTROL_MAP : Fin 5 → Fin 5 := ![2, 3, 4, 0, 1]

/-- `STEM_TRANSFORMATIONS`: the 5 canonical pairs with target elements. -/
def STEM_TRANSFORMATIONS : List (Fin 10 × Fin 10 × Fin 5) :=
  [(0, 5, 2), (1, 6, 3), (2, 7, 4), (3, 8, 0), (4, 9, 1)]

/-- `LIU_HE` (Six Combinations). -/
def LIU_HE : List (ℕ × ℕ) := [(0, 1), (2, 11), (3, 10), (4, 9), (5, 8), (6, 7)]

/-- `LIU_CHONG` (Six Clashes). -/
def LIU_CHONG : List (ℕ × ℕ) := [(0, 6), (1, 7), (2, 8), (3, 9), (4, 10), (5, 11)]

/-- `HARM_PAIRS`. -/
def HARM_PAIRS : List (ℕ × ℕ) := [(0, 7), (1, 6), (2, 5), (3, 4), (8, 11), (9, 10)]

/-- `SELF_PUNISH_BRANCHES`. -/
def SELF_PUNISH_BRANCHES : List ℕ := [4, 6, 9, 11]

/-- `UNCIVIL_PUNISH_PAIRS`. -/
def UNCIVIL_PUNISH_PAIRS : List (ℕ × ℕ) := [(0, 3)]

/-- `BULLY_PUNISH_PAIRS`. -/
def BULLY_PUNISH_PAIRS : List (ℕ × ℕ) :=
  [(2, 5), (5, 8), (2, 8), (1, 10), (10, 7), (1, 7)]

/-- `LONGEVITY_START` table. -/
def LONGEVITY_START : Fin 10 → Fin 12 := ![11, 6, 2, 9, 2, 9, 5, 0, 8, 3]

/-! ## Internal helpers (bazi.c 229-285) -/

/-- Embeds `pair_in_set`: unordered membership of `(a,b)` in a pair table. -/
def pair_in_set (a b : ℕ) (s : List (ℕ × ℕ)) : Bool :=
  s.any (fun p => (a = p.1 ∧ b = p.2) ∨ (a = p.2 ∧ b = p.1))

/-- Embeds `stem_transformation_target` (C returns -1 for "no pair",
modelled as `none`). -/
def stem_transformation_target (s1 s2 : Fin 10) : Option (Fin 5) :=
  match STEM_TRANSFORMATIONS.find?
      (fun t => (s1 = t.1 ∧ s2 = t.2.1) ∨ (s1 = t.2.1 ∧ s2 = t.1)) with
  | some t => some t.2.2
  | none => none

/-- Embeds `is_self_punish_branch`. -/
def is_self_punish_branch (b : ℕ) : Bool := SELF_PUNISH_BRANCHES.any (fun x => x = b)

/-- A Bazi chart: 4 pillars (Year, Month, Day, Hour), each a
(stem index, branch index) pair. -/
def BaziChart : Type := Fin 4 → Fin 10 × Fin 12

/-- Embeds `check_obstruction`: an intervening pillar stem controls one of
the two pair stems' elements (only possible for non-adjacent pillars). -/
def check_obstruction (pillars : BaziChart) (p1 p2 : Fin 4) : Bool :=
  let lo := min p1.val p2.val
  let hi := max p1.val p2.val
  if hi - lo ≤ 1 then false
  else
    let e1 := STEM_ELEMENT (pillars p1).1
    let e2 := STEM_ELEMENT (pillars p2).1
    (List.finRange 4).any (fun mid =>
      lo < mid.val ∧ mid.val < hi ∧
        (CONTROL_MAP (STEM_ELEMENT (pillars mid).1) = e1 ∨
         CONTROL_MAP (STEM_ELEMENT (pillars mid).1) = e2))

/-- Embeds `check_severe_clash`. -/
def check_severe_clash (pillars : BaziChart) (target_element : Fin 5) : Bool :=
  let dm_pol := STEM_POLARITY (pillars 2).1
  (List.finRange 4).any (fun i =>
    CONTROL_MAP (STEM_ELEMENT (pillars i).1) = target_element ∧
      (i = 1 ∨ STEM_POLARITY (pillars i).1 ≠ dm_pol))

/-! ## Transformation detection (bazi.c 391-476) -/

structure Transformation where
  pair_a : Fin 4
  pair_b : Fin 4
  stem_a : Fin 10
  stem_b : Fin 10
  target_element : Fin 5
  month_support : Bool
  leading_present : Bool
  blocked : Bool
  severely_clashed : Bool
  proximity_score : ℕ
  status : String
  confidence : ℤ
deriving DecidableEq

/-- The i<j pillar pairs in the order the C double loop visits them. -/
def PILLAR_PAIRS : List (Fin 4 × Fin 4) :=
  [(0, 1), (0, 2), (0, 3), (1, 2), (1, 3), (2, 3)]

/-- The adjacent pillar pairs (`adjacent` in bazi.c). -/
def ADJACENT_PAIRS : List (ℕ × ℕ) := [(0, 1), (1, 2), (2, 3)]

/-- The "leading stem" search of `bazi_detect_transformations`: the target
element visible as a plain stem outside the pair, or as any hidden stem of
any pillar branch (the C code runs the hidden-stem loop only when the plain
search failed; `||` short-circuits identically). -/
def leading_stem_present (pillars : BaziChart) (i j : Fin 4) (target : Fin 5) : Bool :=
  (List.finRange 4).any (fun k =>
    k ≠ i ∧ k ≠ j ∧ STEM_ELEMENT (pillars k).1 = target) ||
  (List.finRange 4).any (fun k =>
    (BRANCH_HIDDEN_STEMS (pillars k).2).any (fun hs => STEM_ELEMENT hs = target))

/-- Body of the `bazi_detect_transformations` loop for one pillar pair. -/
def transformation_entry (pillars : BaziChart) (i j : Fin 4) : Option Transformation :=
  let s1 := (pillars i).1
  let s2 := (pillars j).1
  match stem_transformation_target s1 s2 with
  | none => none
  | some target =>
    let month_branch_elem := BRANCH_ELEMENT (pillars 1).2
    let is_adjacent := pair_in_set i.val j.val ADJACENT_PAIRS
    let proximity_score := if is_adjacent then 2 else 1
    let blocked := check_obstruction pillars i j
    let month_support := month_branch_elem = target
    let leading := leading_stem_present pillars i j target
    let severely_clashed := check_severe_clash pillars target
    let sc0 : String × ℤ :=
      if proximity_score = 2 ∧ month_support ∧
          (leading ∨ ¬severely_clashed) ∧ ¬blocked then
        ("Hóa (successful)", if leading then 95 else 85)
      else if 1 ≤ proximity_score ∧ (month_support ∨ leading) ∧ ¬blocked then
        ("Hợp (bound)", 65)
      else if blocked then
        ("Blocked", 10)
      else
        ("Hợp (bound)", 40)
    let sc : String × ℤ :=
      if sc0.1 = "Hóa (successful)" ∧ severely_clashed then
        ("Hóa (suppressed by clash)", max 20 (sc0.2 - 30))
      else sc0
    some { pair_a := i, pair_b := j, stem_a := s1, stem_b := s2,
           target_element := target, month_support := month_support,
           leading_present := leading, blocked := blocked,
           severely_clashed := severely_clashed,
           proximity_score := proximity_score,
           status := sc.1, confidence := sc.2 }

/-- Embeds `bazi_detect_transformations`: the C loop fills the result array
in pair order and stops when it is full, so the output is the first
`max_results` produced events. -/
def bazi_detect_transformations (pillars : BaziChart) (max_results : ℕ) :
    List Transformation :=
  (PILLAR_PAIRS.filterMap (fun ij => transformation_entry pillars ij.1 ij.2)).take
    max_results

/-! ## Dynamic-pillar recurrence detection (bazi.c 478-503) -/

structure PhucNgamEvent where
  match_type : String
  natal_pillar : Fin 4
  dynamic_stem_idx : Fin 10
  dynamic_branch_idx : Fin 12
  confidence : ℤ
deriving DecidableEq

/-- Body of the `bazi_detect_phuc_ngam` loop for one natal pillar. -/
def phuc_ngam_entry (pillars : BaziChart) (dyn_stem : Fin 10) (dyn_branch : Fin 12)
    (i : Fin 4) : List PhucNgamEvent :=
  let s := (pillars i).1
  let b := (pillars i).2
  if s = dyn_stem ∧ b = dyn_branch then
    [{ match_type := "exact", natal_pillar := i, dynamic_stem_idx := dyn_stem,
       dynamic_branch_idx := dyn_branch, confidence := if i = 1 then 95 else 90 }]
  else if b = dyn_branch then
    [{ match_type := "branch", natal_pillar := i, dynamic_stem_idx := dyn_stem,
       dynamic_branch_idx := dyn_branch, confidence := if i = 1 then 70 else 60 }]
  else []

/-- Embeds `bazi_detect_phuc_ngam` (loop in pillar order, capped output). -/
def bazi_detect_phuc_ngam (pillars : BaziChart) (dyn_stem : Fin 10)
    (dyn_branch : Fin 12) (max_results : ℕ) : List PhucNgamEvent :=
  ((List.finRange 4).flatMap (phuc_ngam_entry pillars dyn_stem dyn_branch)).take
    max_results

/-! ## Punishment detection (bazi.c 505-575) -/

structure Punishment where
  punishment_type : String
  pair_a : Fin 4
  pair_b : Fin 4
  branch_a : Fin 12
  branch_b : Fin 12
  severity : ℤ
  life_area_1 : String
  life_area_2 : String
deriving DecidableEq

/-- Severity rule shared by all punishment events of one pillar pair. -/
def punishment_severity (i j : Fin 4) : ℤ :=
  if i = 2 ∨ j = 2 then 80 else if i = 1 ∨ j = 1 then 70 else 50

/-- Self-punishment check of the `bazi_detect_punishments` loop body. -/
def punishment_self_entry (pillars : BaziChart) (i j : Fin 4) : List Punishment :=
  if (pillars i).2 = (pillars j).2 ∧ is_self_punish_branch (pillars i).2.val then
    [{ punishment_type := "Tự hình (Self-punish)", pair_a := i, pair_b := j,
       branch_a := (pillars i).2, branch_b := (pillars j).2,
       severity := punishment_severity i j,
       life_area_1 := "health", life_area_2 := "self-sabotage" }]
  else []

/-- Uncivil-punishment check of the loop body. -/
def punishment_uncivil_entry (pillars : BaziChart) (i j : Fin 4) : List Punishment :=
  if pair_in_set (pillars i).2.val (pillars j).2.val UNCIVIL_PUNISH_PAIRS then
    [{ punishment_type := "Vô lễ chi hình (Uncivil)", pair_a := i, pair_b := j,
       branch_a := (pillars i).2, branch_b := (pillars j).2,
       severity := punishment_severity i j,
       life_area_1 := "relationship", life_area_2 := "secrets" }]
  else []

/-- Bully-punishment check of the loop body. -/
def punishment_bully_entry (pillars : BaziChart) (i j : Fin 4) : List Punishment :=
  if pair_in_set (pillars i).2.val (pillars j).2.val BULLY_PUNISH_PAIRS then
    [{ punishment_type := "Ỷ thế chi hình (Bully)", pair_a := i, pair_b := j,
       branch_a := (pillars i).2, branch_b := (pillars j).2,
       severity := punishment_severity i j,
       life_area_1 := "career", life_area_2 := "power struggles" }]
  else []

/-- Harm check of the loop body. -/
def punishment_harm_entry (pillars : BaziChart) (i j : Fin 4) : List Punishment :=
  if pair_in_set (pillars i).2.val (pillars j).2.val HARM_PAIRS then
    [{ punishment_type := "Hại (Harm)", pair_a := i, pair_b := j,
       branch_a := (pillars i).2, branch_b := (pillars j).2,
       severity := punishment_severity i j,
       life_area_1 := "health", life_area_2 := "relationship" }]
  else []

/-- Body of the `bazi_detect_punishments` double loop for one pillar pair:
up to four events (self-punish, uncivil, bully, harm) in that order. -/
def punishment_entries (pillars : BaziChart) (i j : Fin 4) : List Punishment :=
  punishment_self_entry pillars i j ++ punishment_uncivil_entry pillars i j ++
  punishment_bully_entry pillars i j ++ punishment_harm_entry pillars i j

/-- Embeds `bazi_detect_punishments` (pair order, capped output). -/
def bazi_detect_punishments (pillars : BaziChart) (max_results : ℕ) :
    List Punishment :=
  (PILLAR_PAIRS.flatMap (fun ij => punishment_entries pillars ij.1 ij.2)).take
    max_results

/-! ## Guarded lookup functions (bazi.c 289-312, 353-365, 579-583) -/

/-- Embeds `bazi_stem_element` (sentinel -1 for out-of-range). -/
def bazi_stem_element (stem_idx : ℤ) : ℤ :=
  if h : stem_idx < 0 ∨ stem_idx > 9 then -1
  else (STEM_ELEMENT ⟨stem_idx.toNat, by omega⟩ : Fin 5).val

/-- Embeds `bazi_stem_polarity`. -/
def bazi_stem_polarity (stem_idx : ℤ) : ℤ :=
  if h : stem_idx < 0 ∨ stem_idx > 9 then -1
  else (STEM_POLARITY ⟨stem_idx.toNat, by omega⟩ : Fin 2).val

/-- Embeds `bazi_branch_element`. -/
def bazi_branch_element (branch_idx : ℤ) : ℤ :=
  if h : branch_idx < 0 ∨ branch_idx > 11 then -1
  else (BRANCH_ELEMENT ⟨branch_idx.toNat, by omega⟩ : Fin 5).val

/-- Embeds `bazi_element_relation` (codes 0-4, -1 for invalid). -/
def bazi_element_relation (dm_elem other_elem : ℤ) : ℤ :=
  if h : dm_elem < 0 ∨ dm_elem > 4 ∨ other_elem < 0 ∨ other_elem > 4 then -1
  else
    let dm : Fin 5 := ⟨dm_elem.toNat, by omega⟩
    let ot : Fin 5 := ⟨other_elem.toNat, by omega⟩
    if ot = dm then 0
    else if GEN_MAP ot = dm then 1
    else if GEN_MAP dm = ot then 2
    else if CONTROL_MAP dm = ot then 3
    else if CONTROL_MAP ot = dm then 4
    else -1

/-- `TEN_GOD_NAMES` table (relation code x same/different polarity). -/
def TEN_GOD_NAMES : Fin 5 → Fin 2 → String :=
  ![!["比肩", "劫财"], !["偏印", "正印"], !["食神", "伤官"],
    !["偏财", "正财"], !["七杀", "正官"]]

/-- Embeds `bazi_ten_god` (empty string for out-of-range). -/
def bazi_ten_god (dm_stem_idx target_stem_idx : ℤ) : String :=
  if h : dm_stem_idx < 0 ∨ dm_stem_idx > 9 ∨
      target_stem_idx < 0 ∨ target_stem_idx > 9 then ""
  else
    let dm : Fin 10 := ⟨dm_stem_idx.toNat, by omega⟩
    let tg : Fin 10 := ⟨target_stem_idx.toNat, by omega⟩
    let rel := bazi_element_relation (STEM_ELEMENT dm).val (STEM_ELEMENT tg).val
    if h2 : rel < 0 ∨ rel > 4 then ""
    else
      let same_pol : Fin 2 := if STEM_POLARITY dm = STEM_POLARITY tg then 0 else 1
      TEN_GOD_NAMES ⟨rel.toNat, by omega⟩ same_pol

structure NaYinEntry where
  element : Fin 5
  chinese : String
  vietnamese : String
  english : String
deriving DecidableEq

/-- `NAYIN_DATA` (60 entries, cycle 1-60). -/
def NAYIN_DATA : List NaYinEntry :=
  [⟨3, "海中金", "Hải Trung Kim", "Sea Metal"⟩,
   ⟨3, "海中金", "Hải Trung Kim", "Sea Metal"⟩,
   ⟨1, "爐中火", "Lư Trung Hỏa", "Furnace Fire"⟩,
   ⟨1, "爐中火", "Lư Trung Hỏa", "Furnace Fire"⟩,
   ⟨0, "大林木", "Đại Lâm Mộc", "Great Forest Wood"⟩,
   ⟨0, "大林木", "Đại Lâm Mộc", "Great Forest Wood"⟩,
   ⟨2, "路旁土", "Lộ Bàng Thổ", "Roadside Earth"⟩,
   ⟨2, "路旁土", "Lộ Bàng Thổ", "Roadside Earth"⟩,
   ⟨3, "劍鋒金", "Kiếm Phong Kim", "Sword-Point Metal"⟩,
   ⟨3, "劍鋒金", "Kiếm Phong Kim", "Sword-Point Metal"⟩,
   ⟨1, "山头火", "Sơn Đầu Hỏa", "Mountain-Top Fire"⟩,
   ⟨1, "山头火", "Sơn Đầu Hỏa", "Mountain-Top Fire"⟩,
   ⟨4, "澗下水", "Giản Hạ Thuỷ", "Ravine Water"⟩,
   ⟨4, "澗下水", "Giản Hạ Thuỷ", "Ravine Water"⟩,
   ⟨2, "城头土", "Thành Đầu Thổ", "City Wall Earth"⟩,
   ⟨2, "城头土", "Thành Đầu Thổ", "City Wall Earth"⟩,
   ⟨3, "白蜡金", "Bạch Lạp Kim", "White Wax Metal"⟩,
   ⟨3, "白蜡金", "Bạch Lạp Kim", "White Wax Metal"⟩,
   ⟨0, "杨柳木", "Dương Liễu Mộc", "Willow Wood"⟩,
   ⟨0, "杨柳木", "Dương Liễu Mộc", "Willow Wood"⟩,
   ⟨4, "井泉水", "Tỉnh Tuyền Thủy", "Well Spring Water"⟩,
   ⟨4, "井泉水", "Tỉnh Tuyền Thủy", "Well Spring Water"⟩,
   ⟨2, "屋上土", "Ốc Thượng Thổ", "Rooftop Earth"⟩,
   ⟨2, "屋上土", "Ốc Thượng Thổ", "Rooftop Earth"⟩,
   ⟨1, "霹雳火", "Tích Lịch Hỏa", "Thunderbolt Fire"⟩,
   ⟨1, "霹雳火", "Tích Lịch Hỏa", "Thunderbolt Fire"⟩,
   ⟨0, "松柏木", "Tùng Bách Mộc", "Pine & Cypress Wood"⟩,
   ⟨0, "松柏木", "Tùng Bách Mộc", "Pine & Cypress Wood"⟩,
   ⟨4, "长流水", "Trường Lưu Thủy", "Long Flowing Water"⟩,
   ⟨4, "长流水", "Trường Lưu Thủy", "Long Flowing Water"⟩,
   ⟨3, "砂中金", "Sa Thạch Kim", "Sand-Middle Metal"⟩,
   ⟨3, "砂中金", "Sa Thạch Kim", "Sand-Middle Metal"⟩,
   ⟨1, "山下火", "Sơn Hạ Hỏa", "Mountain-Base Fire"⟩,
   ⟨1, "山下火", "Sơn Hạ Hỏa", "Mountain-Base Fire"⟩,
   ⟨0, "平地木", "Bình Địa Mộc", "Flat Land Wood"⟩,
   ⟨0, "平地木", "Bình Địa Mộc", "Flat Land Wood"⟩,
   ⟨2, "壁上土", "Bích Thượng Thổ", "Wall Earth"⟩,
   ⟨2, "壁上土", "Bích Thượng Thổ", "Wall Earth"⟩,
   ⟨3, "金箔金", "Kim Bạc Kim", "Gold Foil Metal"⟩,
   ⟨3, "金箔金", "Kim Bạc Kim", "Gold Foil Metal"⟩,
   ⟨1, "覆灯火", "Phúc Đăng Hỏa", "Covered Lamp Fire"⟩,
   ⟨1, "覆灯火", "Phúc Đăng Hỏa", "Covered Lamp Fire"⟩,
   ⟨4, "天河水", "Thiên Hà Thủy", "Sky River Water"⟩,
   ⟨4, "天河水", "Thiên Hà Thủy", "Sky River Water"⟩,
   ⟨2, "大驿土", "Đại Dịch Thổ", "Great Post Earth"⟩,
   ⟨2, "大驿土", "Đại Dịch Thổ", "Great Post Earth"⟩,
   ⟨3, "钗钏金", "Thoa Xuyến Kim", "Hairpin Metal"⟩,
   ⟨3, "钗钏金", "Thoa Xuyến Kim", "Hairpin Metal"⟩,
   ⟨0, "桑柘木", "Tang Chá Mộc", "Mulberry Wood"⟩,
   ⟨0, "桑柘木", "Tang Chá Mộc", "Mulberry Wood"⟩,
   ⟨4, "大溪水", "Đại Khê Thủy", "Great Stream Water"⟩,
   ⟨4, "大溪水", "Đại Khê Thủy", "Great Stream Water"⟩,
   ⟨2, "沙中土", "Sa Trung Thổ", "Sand Earth"⟩,
   ⟨2, "沙中土", "Sa Trung Thổ", "Sand Earth"⟩,
   ⟨1, "天上火", "Thiên Thượng Hỏa", "Heavenly Fire"⟩,
   ⟨1, "天上火", "Thiên Thượng Hỏa", "Heavenly Fire"⟩,
   ⟨0, "石榴木", "Thạch Lựu Mộc", "Pomegranate Wood"⟩,
   ⟨0, "石榴木", "Thạch Lựu Mộc", "Pomegranate Wood"⟩,
   ⟨4, "大海水", "Đại Hải Thủy", "Great Ocean Water"⟩,
   ⟨4, "大海水", "Đại Hải Thủy", "Great Ocean Water"⟩]

/-- Embeds `bazi_nayin_for_cycle` (null pointer modelled as `none`). -/
def bazi_nayin_for_cycle (cycle : ℤ) : Option NaYinEntry :=
  if cycle < 1 ∨ cycle > 60 then none
  else NAYIN_DATA.get? (cycle - 1).toNat

/-- Embeds `bazi_ganzhi_from_cycle` (the C function writes through pointers
only for cycle in 1..60; out-of-range leaves outputs untouched, modelled as
`none`). -/
def bazi_ganzhi_from_cycle (cycle : ℤ) : Option (ℕ × ℕ) :=
  if cycle < 1 ∨ cycle > 60 then none
  else some ((cycle - 1).toNat % 10, (cycle - 1).toNat % 12)

/-! ## Claim C4 -/

set_option maxRecDepth 10000 in
set_option synthInstance.maxSize 2000 in
set_option synthInstance.maxHeartbeats 1000000 in
/-- C4: for every stem index 0-9 and branch index 0-11 of matching parity,
`cycle_from_stem_branch` returns the unique cycle `c` in 1..60 with
`(c-1) % 10 = stem` and `(c-1) % 12 = branch`; and every cycle 1..60
round-trips through `bazi_ganzhi_from_cycle`. -/
theorem C4_cycle_roundtrip :
    (∀ s, s < 10 → ∀ b, b < 12 → s % 2 = b % 2 →
      1 ≤ cycle_from_stem_branch (s + 1) (b + 1) ∧
      cycle_from_stem_branch (s + 1) (b + 1) ≤ 60 ∧
      (cycle_from_stem_branch (s + 1) (b + 1) - 1) % 10 = s ∧
      (cycle_from_stem_branch (s + 1) (b + 1) - 1) % 12 = b ∧
      (∀ c, c < 61 → 1 ≤ c → (c - 1) % 10 = s → (c - 1) % 12 = b →
        c = cycle_from_stem_branch (s + 1) (b + 1))) ∧
    (∀ c : ℕ, c < 61 → 1 ≤ c →
      bazi_ganzhi_from_cycle (c : ℤ) = some ((c - 1) % 10, (c - 1) % 12) ∧
      cycle_from_stem_branch ((c - 1) % 10 + 1) ((c - 1) % 12 + 1) = c) := by
  constructor
  · decide
  · intro c h60 h1
    constructor
    · unfold bazi_ganzhi_from_cycle
      rw [if_neg (by omega : ¬ ((c : ℤ) < 1 ∨ (c : ℤ) > 60))]
      congr 1
      have hc : ((c : ℤ) - 1).toNat = c - 1 := by omega
      rw [hc]
    · revert h1 h60
      revert c
      decide

/-- Witness for C4 at stem 2 / branch 4 (parity match) and cycle 41. -/
theorem C4_cycle_roundtrip_witness :
    (2 % 2 = 4 % 2 ∧ cycle_from_stem_branch 3 5 ≤ 60 ∧
      (cycle_from_stem_branch 3 5 - 1) % 10 = 2 ∧
      (cycle_from_stem_branch 3 5 - 1) % 12 = 4) ∧
    cycle_from_stem_branch ((41 - 1) % 10 + 1) ((41 - 1) % 12 + 1) = 41 :=
  ⟨⟨by decide,
    (C4_cycle_roundtrip.1 2 (by decide) 4 (by decide) (by decide)).2.1,
    (C4_cycle_roundtrip.1 2 (by decide) 4 (by decide) (by decide)).2.2.1,
    (C4_cycle_roundtrip.1 2 (by decide) 4 (by decide) (by decide)).2.2.2.1⟩,
   (C4_cycle_roundtrip.2 41 (by decide) (by decide)).2⟩

/-! ## Claim C9 -/

/-- C9: the guarded lookup functions return their sentinel exactly on
out-of-range inputs: -1 for `bazi_stem_element`/`bazi_branch_element`, the
empty string for `bazi_ten_god`, and a null pointer (`none`) for
`bazi_nayin_for_cycle`; in-range inputs never yield the sentinel. -/
theorem C9_lookup_sentinels :
    (∀ i : ℤ, (i < 0 ∨ 9 < i) → bazi_stem_element i = -1) ∧
    (∀ i : ℤ, 0 ≤ i → i ≤ 9 → bazi_stem_element i ≠ -1) ∧
    (∀ i : ℤ, (i < 0 ∨ 11 < i) → bazi_branch_element i = -1) ∧
    (∀ i : ℤ, 0 ≤ i → i ≤ 11 → bazi_branch_element i ≠ -1) ∧
    (∀ i j : ℤ, (i < 0 ∨ 9 < i ∨ j < 0 ∨ 9 < j) → bazi_ten_god i j = "") ∧
    (∀ i j : ℤ, 0 ≤ i → i ≤ 9 → 0 ≤ j → j ≤ 9 → bazi_ten_god i j ≠ "") ∧
    (∀ c : ℤ, (c < 1 ∨ 60 < c) → bazi_nayin_for_cycle c = none) ∧
    (∀ c : ℤ, 1 ≤ c → c ≤ 60 → (bazi_nayin_for_cycle c).isSome) := by
  refine ⟨?_, ?_, ?_, ?_, ?_, ?_, ?_, ?_⟩
  · intro i h
    unfold bazi_stem_element
    rw [dif_pos (by omega)]
  · intro i h0 h9
    unfold bazi_stem_element
    rw [dif_neg (by omega)]
    have := ((STEM_ELEMENT ⟨i.toNat, by omega⟩ : Fin 5)).val
    omega
  · intro i h
    unfold bazi_branch_element
    rw [dif_pos (by omega)]
  · intro i h0 h11
    unfold bazi_branch_element
    rw [dif_neg (by omega)]
    omega
  · intro i j h
    unfold bazi_ten_god
    rw [dif_pos (by omega)]
  · intro i j h0 h9 hj0 hj9
    have hi : i = (i.toNat : ℤ) := by omega
    have hj : j = (j.toNat : ℤ) := by omega
    rw [hi, hj]
    have hilt : i.toNat < 10 := by omega
    have hjlt : j.toNat < 10 := by omega
    revert hilt hjlt
    generalize i.toNat = a
    generalize j.toNat = b
    intro hilt hjlt
    interval_cases a <;> interval_cases b <;> decide
  · intro c h
    unfold bazi_nayin_for_cycle
    rw [if_pos (by omega)]
  · intro c h1 h60
    have hc : c = (c.toNat : ℤ) := by omega
    rw [hc]
    have hlt : c.toNat < 61 := by omega
    have hge : 1 ≤ c.toNat := by omega
    revert hge hlt
    generalize c.toNat = a
    intro hge hlt
    interval_cases a <;> decide

/-- Witness for C9 at representative in-range and out-of-range inputs. -/
theorem C9_lookup_sentinels_witness :
    bazi_stem_element (-3) = -1 ∧ bazi_stem_element 7 ≠ -1 ∧
    bazi_branch_element 12 = -1 ∧ bazi_branch_element 11 ≠ -1 ∧
    bazi_ten_god 10 0 = "" ∧ bazi_ten_god 4 9 ≠ "" ∧
    bazi_nayin_for_cycle 61 = none ∧ (bazi_nayin_for_cycle 60).isSome :=
  ⟨C9_lookup_sentinels.1 (-3) (by omega),
   C9_lookup_sentinels.2.1 7 (by omega) (by omega),
   C9_lookup_sentinels.2.2.1 12 (by omega),
   C9_lookup_sentinels.2.2.2.1 11 (by omega) (by omega),
   C9_lookup_sentinels.2.2.2.2.1 10 0 (by omega),
   C9_lookup_sentinels.2.2.2.2.2.1 4 9 (by omega) (by omega) (by omega) (by omega),
   C9_lookup_sentinels.2.2.2.2.2.2.1 61 (by omega),
   C9_lookup_sentinels.2.2.2.2.2.2.2 60 (by omega) (by omega)⟩

/-! ## Claim C10 -/

theorem phuc_ngam_stream_facts (pillars : BaziChart) (ds : Fin 10) (db : Fin 12)
    (i : Fin 4) :
    (phuc_ngam_entry pillars ds db i).length ≤ 1 ∧
    (∀ e ∈ phuc_ngam_entry pillars ds db i, e.natal_pillar = i) ∧
    (∀ e ∈ phuc_ngam_entry pillars ds db i,
      ((pillars i).1 = ds ∧ (pillars i).2 = db) → e.match_type = "exact") := by
  unfold phuc_ngam_entry
  by_cases h1 : (pillars i).1 = ds ∧ (pillars i).2 = db
  · rw [if_pos h1]
    refine ⟨by simp, by simp, by simp⟩
  · rw [if_neg h1]
    by_cases h2 : (pillars i).2 = db
    · rw [if_pos h2]
      refine ⟨by simp, by simp, ?_⟩
      intro e he hm
      exact absurd hm h1
    · rw [if_neg h2]
      refine ⟨by simp, by simp, by simp⟩

/-- C10: `bazi_detect_phuc_ngam` reports at most one recurrence event per
natal pillar, an exact stem+branch match is reported only as "exact" (never
as a branch-only match), the total event count is at most 4, and events come
in pillar order (Year, Month, Day, Hour). -/
theorem C10_phuc_ngam_shape (pillars : BaziChart) (ds : Fin 10) (db : Fin 12)
    (max_results : ℕ) (hmax : 4 ≤ max_results) :
    (bazi_detect_phuc_ngam pillars ds db max_results).length ≤ 4 ∧
    List.Pairwise (fun a b => a.natal_pillar < b.natal_pillar)
      (bazi_detect_phuc_ngam pillars ds db max_results) ∧
    (∀ e ∈ bazi_detect_phuc_ngam pillars ds db max_results,
      ((pillars e.natal_pillar).1 = ds ∧ (pillars e.natal_pillar).2 = db) →
        e.match_type = "exact") := by
  have h0 := phuc_ngam_stream_facts pillars ds db 0
  have h1 := phuc_ngam_stream_facts pillars ds db 1
  have h2 := phuc_ngam_stream_facts pillars ds db 2
  have h3 := phuc_ngam_stream_facts pillars ds db 3
  unfold bazi_detect_phuc_ngam
  have hfr : (List.finRange 4) = [(0 : Fin 4), 1, 2, 3] := by decide
  rw [hfr]
  simp only [List.flatMap_cons, List.flatMap_nil, List.append_nil]
  set l0 := phuc_ngam_entry pillars ds db 0
  set l1 := phuc_ngam_entry pillars ds db 1
  set l2 := phuc_ngam_entry pillars ds db 2
  set l3 := phuc_ngam_entry pillars ds db 3
  have hlen : (l0 ++ (l1 ++ (l2 ++ l3))).length ≤ 4 := by
    simp only [List.length_append]
    omega
  have htake : (l0 ++ (l1 ++ (l2 ++ l3))).take max_results = l0 ++ (l1 ++ (l2 ++ l3)) :=
    List.take_of_length_le (le_trans hlen hmax)
  rw [htake]
  refine ⟨hlen, ?_, ?_⟩
  · rw [List.pairwise_append]
    refine ⟨?_, ?_, ?_⟩
    · exact List.Pairwise.sublist (List.Sublist.refl l0) (by
        rcases l0 with _ | ⟨x, _ | ⟨y, t⟩⟩ <;> simp_all)
    · rw [List.pairwise_append]
      refine ⟨?_, ?_, ?_⟩
      · rcases l1 with _ | ⟨x, _ | ⟨y, t⟩⟩ <;> simp_all
      · rw [List.pairwise_append]
        refine ⟨?_, ?_, ?_⟩
        · rcases l2 with _ | ⟨x, _ | ⟨y, t⟩⟩ <;> simp_all
        · rcases l3 with _ | ⟨x, _ | ⟨y, t⟩⟩ <;> simp_all
        · intro a ha b hb
          rw [h2.2.1 a ha, h3.2.1 b hb]
          decide
      · intro a ha b hb
        rcases List.mem_append.mp hb with hb2 | hb3
        · rw [h1.2.1 a ha, h2.2.1 b hb2]
          decide
        · rw [h1.2.1 a ha, h3.2.1 b hb3]
          decide
    · intro a ha b hb
      rcases List.mem_append.mp hb with hb1 | hb23
      · rw [h0.2.1 a ha, h1.2.1 b hb1]
        decide
      · rcases List.mem_append.mp hb23 with hb2 | hb3
        · rw [h0.2.1 a ha, h2.2.1 b hb2]
          decide
        · rw [h0.2.1 a ha, h3.2.1 b hb3]
          decide
  · intro e he hme
    rcases List.mem_append.mp he with he0 | he123
    · have := h0.2.1 e he0
      exact h0.2.2 e he0 (by rw [this] at hme; exact hme)
    · rcases List.mem_append.mp he123 with he1 | he23
      · have := h1.2.1 e he1
        exact h1.2.2 e he1 (by rw [this] at hme; exact hme)
      · rcases List.mem_append.mp he23 with he2 | he3
        · have := h2.2.1 e he2
          exact h2.2.2 e he2 (by rw [this] at hme; exact hme)
        · have := h3.2.1 e he3
          exact h3.2.2 e he3 (by rw [this] at hme; exact hme)

/-- Witness for C10 on a concrete chart and dynamic pillar. -/
theorem C10_phuc_ngam_shape_witness :
    (4 ≤ 8) ∧
    (bazi_detect_phuc_ngam ![(0, 1), (1, 0), (2, 3), (4, 1)] 0 1 8).length ≤ 4 ∧
    List.Pairwise (fun a b => a.natal_pillar < b.natal_pillar)
      (bazi_detect_phuc_ngam ![(0, 1), (1, 0), (2, 3), (4, 1)] 0 1 8) :=
  ⟨by decide, (C10_phuc_ngam_shape ![(0, 1), (1, 0), (2, 3), (4, 1)] 0 1 8 (by decide)).1,
   (C10_phuc_ngam_shape ![(0, 1), (1, 0), (2, 3), (4, 1)] 0 1 8 (by decide)).2.1⟩

/-! ## Claim C5 -/

theorem filter_if_singleton {α : Type} (p : α → Bool) (c : Prop) [Decidable c]
    (x : α) (hx : p x = false) :
    List.filter p (if c then [x] else []) = [] := by
  split_ifs <;> simp [List.filter, hx]

theorem self_pred_of_other {l : List Punishment} (b0 : Fin 12)
    (h : ∀ e ∈ l, e.punishment_type ≠ "Tự hình (Self-punish)") :
    l.filter (fun e => e.punishment_type = "Tự hình (Self-punish)" ∧ e.branch_a = b0) = [] := by
  induction l with
  | nil => rfl
  | cons x t ih =>
    have hx := h x (by simp)
    simp only [List.filter_cons]
    rw [if_neg (by simp [hx])]
    exact ih (fun e he => h e (by simp [he]))

/-- The self-punishment events a single pillar pair contributes, filtered
for a given branch. -/
theorem punishment_self_filter (pillars : BaziChart) (b0 : Fin 12) (i j : Fin 4) :
    (punishment_entries pillars i j).filter
      (fun e => e.punishment_type = "Tự hình (Self-punish)" ∧ e.branch_a = b0) =
    (if (pillars i).2 = (pillars j).2 ∧ is_self_punish_branch (pillars i).2.val ∧
        (pillars i).2 = b0 then
      [{ punishment_type := "Tự hình (Self-punish)", pair_a := i, pair_b := j,
         branch_a := (pillars i).2, branch_b := (pillars j).2,
         severity := punishment_severity i j,
         life_area_1 := "health", life_area_2 := "self-sabotage" }]
    else []) := by
  unfold punishment_entries
  simp only [List.filter_append]
  rw [@self_pred_of_other (punishment_uncivil_entry pillars i j) b0 (by
      unfold punishment_uncivil_entry
      split_ifs <;> simp),
    @self_pred_of_other (punishment_bully_entry pillars i j) b0 (by
      unfold punishment_bully_entry
      split_ifs <;> simp),
    @self_pred_of_other (punishment_harm_entry pillars i j) b0 (by
      unfold punishment_harm_entry
      split_ifs <;> simp)]
  simp only [List.append_nil]
  unfold punishment_self_entry
  by_cases hA : (pillars i).2 = (pillars j).2 ∧
      is_self_punish_branch (pillars i).2.val = true
  · rw [if_pos hA]
    by_cases hb : (pillars i).2 = b0
    · rw [if_pos ⟨hA.1, hA.2, hb⟩]
      simp [List.filter, hb]
    · rw [if_neg (fun hx => hb hx.2.2)]
      simp [List.filter, hb]
  · rw [if_neg hA, if_neg (fun hx => hA ⟨hx.1, hx.2.1⟩)]
    simp

theorem punishment_entries_length (pillars : BaziChart) (i j : Fin 4) :
    (punishment_entries pillars i j).length ≤ 4 := by
  unfold punishment_entries punishment_self_entry punishment_uncivil_entry
    punishment_bully_entry punishment_harm_entry
  split_ifs <;> simp

/-- C5 (amended): a chart in which exactly two pillars bear the same
self-punishing branch yields exactly one Self-Punishment event for that
branch; its severity is 80 if the Day pillar is involved, else 70 if the
Month pillar is involved, else 50. -/
theorem C5_self_punishment (pillars : BaziChart) (b0 : Fin 12) (i j : Fin 4)
    (hij : i < j) (hsp : is_self_punish_branch b0.val = true)
    (hi : (pillars i).2 = b0) (hj : (pillars j).2 = b0)
    (hothers : ∀ k, k ≠ i → k ≠ j → (pillars k).2 ≠ b0)
    (max_results : ℕ) (hmax : 24 ≤ max_results) :
    (bazi_detect_punishments pillars max_results).filter
      (fun e => e.punishment_type = "Tự hình (Self-punish)" ∧ e.branch_a = b0) =
    [{ punishment_type := "Tự hình (Self-punish)", pair_a := i, pair_b := j,
       branch_a := b0, branch_b := b0,
       severity := (if i = 2 ∨ j = 2 then 80 else if i = 1 ∨ j = 1 then 70 else 50),
       life_area_1 := "health", life_area_2 := "self-sabotage" }] := by
  unfold bazi_detect_punishments
  simp only [PILLAR_PAIRS, List.flatMap_cons, List.flatMap_nil, List.append_nil]
  rw [List.take_of_length_le (le_trans (by
    have h1 := punishment_entries_length pillars 0 1
    have h2 := punishment_entries_length pillars 0 2
    have h3 := punishment_entries_length pillars 0 3
    have h4 := punishment_entries_length pillars 1 2
    have h5 := punishment_entries_length pillars 1 3
    have h6 := punishment_entries_length pillars 2 3
    simp only [List.length_append]
    omega) hmax)]
  simp only [List.filter_append, punishment_self_filter]
  fin_cases i <;> fin_cases j <;>
    first
    | exact absurd hij (by decide)
    | (simp only [Fin.zero_eta, Fin.mk_one, Fin.reduceFinMk] at hi hj
       first
       | (have hn1 := hothers 2 (by decide) (by decide)
          have hn2 := hothers 3 (by decide) (by decide)
          simp [Fin.zero_eta, Fin.mk_one, hi, hj, hsp, hn1, hn2, Ne.symm hn1, Ne.symm hn2, punishment_severity])
       | (have hn1 := hothers 1 (by decide) (by decide)
          have hn2 := hothers 3 (by decide) (by decide)
          simp [Fin.zero_eta, Fin.mk_one, hi, hj, hsp, hn1, hn2, Ne.symm hn1, Ne.symm hn2, punishment_severity])
       | (have hn1 := hothers 1 (by decide) (by decide)
          have hn2 := hothers 2 (by decide) (by decide)
          simp [Fin.zero_eta, Fin.mk_one, hi, hj, hsp, hn1, hn2, Ne.symm hn1, Ne.symm hn2, punishment_severity])
       | (have hn1 := hothers 0 (by decide) (by decide)
          have hn2 := hothers 3 (by decide) (by decide)
          simp [Fin.zero_eta, Fin.mk_one, hi, hj, hsp, hn1, hn2, Ne.symm hn1, Ne.symm hn2, punishment_severity])
       | (have hn1 := hothers 0 (by decide) (by decide)
          have hn2 := hothers 2 (by decide) (by decide)
          simp [Fin.zero_eta, Fin.mk_one, hi, hj, hsp, hn1, hn2, Ne.symm hn1, Ne.symm hn2, punishment_severity])
       | (have hn1 := hothers 0 (by decide) (by decide)
          have hn2 := hothers 1 (by decide) (by decide)
          simp [Fin.zero_eta, Fin.mk_one, hi, hj, hsp, hn1, hn2, Ne.symm hn1, Ne.symm hn2, punishment_severity]))

/-- C5 counterexample to the claim as stated: the self-punishing branch 辰
(4) on the Year and Hour pillars only gives a single Self-Punishment event
of severity 50, not 70 or 80. -/
theorem C5_self_punishment_counterexample :
    ((![(0, 4), (0, 0), (0, 1), (0, 4)] : BaziChart) 0).2 = 4 ∧
    ((![(0, 4), (0, 0), (0, 1), (0, 4)] : BaziChart) 3).2 = 4 ∧
    ((![(0, 4), (0, 0), (0, 1), (0, 4)] : BaziChart) 1).2 ≠ 4 ∧
    ((![(0, 4), (0, 0), (0, 1), (0, 4)] : BaziChart) 2).2 ≠ 4 ∧
    is_self_punish_branch 4 = true ∧
    ((bazi_detect_punishments ![(0, 4), (0, 0), (0, 1), (0, 4)] 24).filter
      (fun e => e.punishment_type = "Tự hình (Self-punish)")).map
      (fun e => e.severity) = [50] ∧
    ¬((50 : ℤ) = 70 ∨ (50 : ℤ) = 80) := by
  refine ⟨by decide, by decide, by decide, by decide, by decide, by decide, by decide⟩

/-- Witness for C5 on a chart with 午 (6) on the Month and Day pillars. -/
theorem C5_self_punishment_witness :
    (bazi_detect_punishments ![(0, 0), (1, 6), (2, 6), (3, 1)] 24).filter
      (fun e => e.punishment_type = "Tự hình (Self-punish)" ∧ e.branch_a = 6) =
    [{ punishment_type := "Tự hình (Self-punish)", pair_a := 1, pair_b := 2,
       branch_a := 6, branch_b := 6, severity := 80,
       life_area_1 := "health", life_area_2 := "self-sabotage" }] := by
  have h := C5_self_punishment ![(0, 0), (1, 6), (2, 6), (3, 1)] 6 1 2
    (by decide) (by decide) (by decide) (by decide)
    (by intro k h1 h2; fin_cases k <;> simp_all <;> decide) 24 (by decide)
  simpa using h

/-! ## Claim C2 -/

/-- Adjacent pillar pairs are never obstructed (`hi - lo <= 1` short-circuit
in `check_obstruction`). -/
theorem check_obstruction_of_adjacent (pillars : BaziChart) (i j : Fin 4)
    (hij : i.val + 1 = j.val) :
    check_obstruction pillars i j = false := by
  fin_cases i <;> fin_cases j <;>
    first
    | (exact absurd hij (by decide))
    | (unfold check_obstruction
       rw [if_pos (by decide)])

theorem transformation_entry_success (pillars : BaziChart) (i j : Fin 4) (t : Fin 5)
    (hij : i.val + 1 = j.val)
    (htgt : stem_transformation_target (pillars i).1 (pillars j).1 = some t)
    (hms : BRANCH_ELEMENT (pillars 1).2 = t)
    (hsc : check_severe_clash pillars t = false) :
    ∃ e, transformation_entry pillars i j = some e ∧
      e.pair_a = i ∧ e.pair_b = j ∧ e.status = "Hóa (successful)" ∧
      e.confidence = (if leading_stem_present pillars i j t then 95 else 85) := by
  have hadj : pair_in_set i.val j.val ADJACENT_PAIRS = true := by
    fin_cases i <;> fin_cases j <;> first | (exact absurd hij (by decide)) | decide
  have hobs := check_obstruction_of_adjacent pillars i j hij
  unfold transformation_entry
  simp only []
  rw [htgt]
  simp only [hadj, hobs, hms, if_true, Bool.false_eq_true, ite_true, ite_false]
  have hcond : True ∧ True ∧
      (leading_stem_present pillars i j t = true ∨
        ¬check_severe_clash pillars t = true) ∧ ¬False :=
    ⟨trivial, trivial, Or.inr (by simp [hsc]), by simp⟩
  rw [if_pos hcond]
  have hncond : ¬(("Hóa (successful)", if leading_stem_present pillars i j t = true
        then (95 : ℤ) else 85).1 = "Hóa (successful)" ∧
      check_severe_clash pillars t = true) := by
    simp [hsc]
  rw [if_neg hncond]
  exact ⟨_, rfl, rfl, rfl, rfl, rfl⟩

/-- C2 (amended): on a chart with both stems of a canonical transformation
pair on adjacent pillars, the month branch bearing the pair's target
element, and no severe clash against the target — no pillar stem whose
element controls the target element while sitting on the Month pillar or
carrying the opposite polarity to the Day Master's stem — the detector
reports that pair as "successful transformation" with confidence 95 when a
leading stem is present and 85 otherwise.  (Adjacent pairs can never be
blocked by an intervening stem, so no obstruction hypothesis is needed.) -/
theorem C2_transformation_success (pillars : BaziChart) (i j : Fin 4) (t : Fin 5)
    (hij : i.val + 1 = j.val)
    (htgt : stem_transformation_target (pillars i).1 (pillars j).1 = some t)
    (hms : BRANCH_ELEMENT (pillars 1).2 = t)
    (hsc : check_severe_clash pillars t = false)
    (max_results : ℕ) (hmax : 6 ≤ max_results) :
    ∃ e ∈ bazi_detect_transformations pillars max_results,
      e.pair_a = i ∧ e.pair_b = j ∧ e.status = "Hóa (successful)" ∧
      e.confidence = (if leading_stem_present pillars i j t then 95 else 85) := by
  obtain ⟨e, he, h1, h2, h3, h4⟩ :=
    transformation_entry_success pillars i j t hij htgt hms hsc
  refine ⟨e, ?_, h1, h2, h3, h4⟩
  unfold bazi_detect_transformations
  rw [List.take_of_length_le (le_trans (le_trans
    (List.length_filterMap_le _ _) (by decide)) hmax)]
  apply List.mem_filterMap.mpr
  refine ⟨(i, j), ?_, he⟩
  fin_cases i <;> fin_cases j <;> first | (exact absurd hij (by decide)) | decide

/-- C2 counterexample to the claim as stated: an adjacent 甲-己 pair with
Earth month support but a severe clash (the Wood stem 甲 on the Year pillar
with polarity opposite to the Day Master controls the target Earth) is
downgraded to "suppressed by clash" with confidence 65, not reported as
"successful transformation" with confidence 95/85. -/
theorem C2_transformation_counterexample :
    stem_transformation_target
      ((![(0, 0), (5, 1), (3, 3), (2, 5)] : BaziChart) 0).1
      ((![(0, 0), (5, 1), (3, 3), (2, 5)] : BaziChart) 1).1 = some 2 ∧
    BRANCH_ELEMENT ((![(0, 0), (5, 1), (3, 3), (2, 5)] : BaziChart) 1).2 = 2 ∧
    check_obstruction ![(0, 0), (5, 1), (3, 3), (2, 5)] 0 1 = false ∧
    leading_stem_present ![(0, 0), (5, 1), (3, 3), (2, 5)] 0 1 2 = true ∧
    (bazi_detect_transformations ![(0, 0), (5, 1), (3, 3), (2, 5)] 6).map
      (fun e => (e.pair_a, e.pair_b, e.status, e.confidence)) =
      [(0, 1, "Hóa (suppressed by clash)", 65)] := by
  refine ⟨by decide, by decide, by decide, by decide, by decide⟩

/-- Witness for C2: a 己-甲 pair on the Month and Day pillars with Earth
month branch, a leading Earth stem on the Year pillar, and no severe
clash. -/
theorem C2_transformation_success_witness :
    ∃ e ∈ bazi_detect_transformations ![(4, 0), (5, 1), (0, 3), (6, 5)] 6,
      e.pair_a = 1 ∧ e.pair_b = 2 ∧ e.status = "Hóa (successful)" ∧
      e.confidence =
        (if leading_stem_present ![(4, 0), (5, 1), (0, 3), (6, 5)] 1 2 2 then 95
         else 85) :=
  C2_transformation_success ![(4, 0), (5, 1), (0, 3), (6, 5)] 1 2 2
    (by decide) (by decide) (by decide) (by decide) 6 (by decide)


/-! ## Date-only helpers (src/ports/lunisolar-emcc/lunisolar.c 94-111) -/

/-- Embeds the `DateOnly` struct. -/
structure DateOnly where
  y : ℤ
  m : ℕ
  d : ℕ
deriving DecidableEq

/-- Embeds `date_only_compare` (sign-significant comparison value). -/
def date_only_compare (a b : DateOnly) : ℤ :=
  if a.y ≠ b.y then a.y - b.y
  else if a.m ≠ b.m then (a.m : ℤ) - (b.m : ℤ)
  else (a.d : ℤ) - (b.d : ℤ)

/-- Embeds `within_cst_range`: `start <= target < end` on calendar dates. -/
def within_cst_range (target start stop : DateOnly) : Bool :=
  decide (date_only_compare start target ≤ 0) &&
  decide (date_only_compare target stop < 0)

/-! ## Date-parts from UTC ms (lines 140-167) -/

/-- Embeds `utc_ms_to_date_parts`.  Returns `(date, hour, minute, second)`. -/
def utc_ms_to_date_parts (utc_ms : ℤ) (offset_seconds : ℤ) :
    DateOnly × ℕ × ℕ × ℕ :=
  let total_s := utc_ms.fdiv 1000 + offset_seconds
  let day_epoch : ℤ :=
    if 0 ≤ total_s then total_s.tdiv 86400 else (total_s - 86399).tdiv 86400
  let tod : ℕ :=
    if 0 ≤ total_s then (total_s.tmod 86400).toNat
    else (total_s - ((total_s - 86399).tdiv 86400) * 86400).toNat
  let c := civil_from_days day_epoch
  (⟨c.1, c.2.1, c.2.2⟩, tod / 3600, (tod % 3600) / 60, tod % 60)

/-- Embeds `cst_date_of`. -/
def cst_date_of (utc_ms : ℤ) (cst_offset : ℤ) : DateOnly :=
  (utc_ms_to_date_parts utc_ms cst_offset).1

/-! ## Ganzhi derivation (lines 180-273) -/

/-- Embeds `year_ganzhi`.  Returns `(stem_idx, branch_idx, cycle)`. -/
def year_ganzhi (lunar_year : ℤ) : ℕ × ℕ × ℕ :=
  let yc0 := (lunar_year - 4).tmod 60 + 1
  let yc := if yc0 ≤ 0 then yc0 + 60 else yc0
  ((yc - 1).toNat % 10, (yc - 1).toNat % 12, yc.toNat)

/-- The fixed year-stem to first-month-stem table in `month_ganzhi`. -/
def month_first_stem (year_stem_idx1 : ℕ) : ℕ :=
  match year_stem_idx1 with
  | 1 | 6 => 3
  | 2 | 7 => 5
  | 3 | 8 => 7
  | 4 | 9 => 9
  | 5 | 10 => 1
  | _ => 3

/-- Embeds `month_ganzhi` (requires `lunar_month ≥ 1`, which the caller
guarantees; the C `unsigned` subtraction would wrap at 0 where ℕ clamps). -/
def month_ganzhi (lunar_year : ℤ) (lunar_month : ℕ) : ℕ × ℕ × ℕ :=
  let ys := (year_ganzhi lunar_year).1
  let first := month_first_stem (ys + 1)
  let ms1 := (first - 1 + (lunar_month - 1)) % 10 + 1
  let mb0 := (lunar_month + 2) % 12
  let mb1 := if mb0 = 0 then 12 else mb0
  (ms1 - 1, mb1 - 1, cycle_from_stem_branch ms1 mb1)

/-- Embeds `day_ganzhi` of the ports variant (argument is the local
wall-clock timestamp in ms). -/
def day_ganzhi (timestamp_ms : ℤ) : ℕ × ℕ × ℕ :=
  let ref_days := days_from_civil 4 1 31
  let total_s := timestamp_ms.fdiv 1000
  let day_from_epoch : ℤ :=
    if 0 ≤ total_s then total_s.tdiv 86400 else (total_s - 86399).tdiv 86400
  let diff := day_from_epoch - ref_days
  let dc := (diff.tmod 60 + 60).tmod 60 + 1
  ((dc - 1).toNat % 10, (dc - 1).toNat % 12, dc.toNat)

/-- Embeds `day_ganzhi` of the wasm variant (UTC timestamp plus timezone
offset; src/wasm/lunisolar-emcc/lunisolar.c 162-180). -/
def day_ganzhi_wasm (timestamp_ms : ℤ) (tz_offset_seconds : ℤ) : ℕ × ℕ × ℕ :=
  let ref_days := days_from_civil 4 1 31
  let total_s := timestamp_ms.fdiv 1000 + tz_offset_seconds
  let day_from_epoch : ℤ :=
    if 0 ≤ total_s then total_s.tdiv 86400 else (total_s - 86399).tdiv 86400
  let diff := day_from_epoch - ref_days
  let dc := (diff.tmod 60 + 60).tmod 60 + 1
  ((dc - 1).toNat % 10, (dc - 1).toNat % 12, dc.toNat)

/-- The day-stem parity table in `hour_ganzhi` (start stem of the Zi hour). -/
def zi_start_stem (day_stem : ℕ) : ℕ :=
  match day_stem with
  | 0 | 5 => 0
  | 1 | 6 => 2
  | 2 | 7 => 4
  | 3 | 8 => 6
  | 4 | 9 => 8
  | _ => 0

/-- Time-of-day seconds of a wall-clock ms value, as `hour_ganzhi` computes
it. -/
def wall_tod (local_wall_ms : ℤ) : ℕ :=
  let total_s := local_wall_ms.fdiv 1000
  if 0 ≤ total_s then (total_s.tmod 86400).toNat
  else (total_s - ((total_s - 86399).tdiv 86400) * 86400).toNat

/-- The local hour as `hour_ganzhi` computes it. -/
def wall_hour (local_wall_ms : ℤ) : ℕ := wall_tod local_wall_ms / 3600

/-- The local decimal hour (`hour + minute / 60.0`) of `hour_ganzhi`,
modelled exactly on ℚ. -/
def wall_decimal_hour (local_wall_ms : ℤ) : ℚ :=
  (wall_hour local_wall_ms : ℚ) +
    ((wall_tod local_wall_ms % 3600) / 60 : ℕ) / 60

/-- Embeds `hour_ganzhi`.  Returns `(stem_idx, branch_idx, cycle)`. -/
def hour_ganzhi (local_wall_ms : ℤ) (base_day_stem : ℕ) : ℕ × ℕ × ℕ :=
  let hour := wall_hour local_wall_ms
  let decimal := wall_decimal_hour local_wall_ms
  let bi0 : ℕ :=
    if 23 ≤ decimal ∨ decimal < 1 then 0
    else
      let b := (⌊(decimal - 1) / 2⌋).toNat + 1
      if 12 ≤ b then 11 else b
  let bi1 := bi0 + 1
  let day_stem := if 23 ≤ hour then (base_day_stem + 1) % 10 else base_day_stem
  let zi0 := zi_start_stem day_stem
  let hs0 := (zi0 + (bi1 - 1)) % 10
  (hs0, bi1 - 1, cycle_from_stem_branch (hs0 + 1) bi1)

/-! ## Claim C6 -/

/-- C6: `hour_ganzhi` assigns the Zi branch (0) exactly when the local
decimal hour is at least 23 or below 1; when the local hour is at least 23
the day stem used for the hour stem is the given one advanced by 1 mod 10;
and the hour stem is the parity-table start stem of that effective day stem
plus the branch index, mod 10. -/
theorem C6_hour_ganzhi (local_wall_ms : ℤ) (base_day_stem : ℕ) :
    ((hour_ganzhi local_wall_ms base_day_stem).2.1 = 0 ↔
      (23 ≤ wall_decimal_hour local_wall_ms ∨ wall_decimal_hour local_wall_ms < 1)) ∧
    (hour_ganzhi local_wall_ms base_day_stem).1 =
      (zi_start_stem
          (if 23 ≤ wall_hour local_wall_ms then (base_day_stem + 1) % 10
           else base_day_stem) +
        (hour_ganzhi local_wall_ms base_day_stem).2.1) % 10 := by
  unfold hour_ganzhi
  simp only []
  constructor
  · by_cases h : 23 ≤ wall_decimal_hour local_wall_ms ∨ wall_decimal_hour local_wall_ms < 1
    · rw [if_pos h]
      simpa using h
    · rw [if_neg h]
      apply iff_of_false _ h
      intro habs
      split_ifs at habs
      omega
  · trivial

/-! ## from_solar_date pipeline (src/ports/lunisolar-emcc/lunisolar.c 276-564,
src/wasm/lunisolar-emcc/lunisolar.c 242-520).  The two variants share the whole
period-assignment machinery; they differ in the CST offset used for calendar
tagging (ports: the caller's tz, wasm: hardcoded 8*3600) and in the final
lunar-year rule.  New-moon and solar-term timestamps arrive in seconds. -/

/-- Embeds the `PrincipalTerm` struct. -/
structure PrincipalTerm where
  instant_utc_ms : ℤ
  cst_date : DateOnly
  term_index : ℕ
deriving DecidableEq

/-- Embeds the `MonthPeriod` struct. -/
structure MonthPeriod where
  start_utc_ms : ℤ
  end_utc_ms : ℤ
  start_cst : DateOnly
  end_cst : DateOnly
  has_principal : Bool
  is_leap : Bool
  month_number : ℕ
deriving DecidableEq

/-- One step of the C insertion sort on new-moon timestamps: insert `x` into
the sorted prefix after every element `≤ x` (the C loop shifts while
`nm_ms[j] > key`). -/
def insort_ms (x : ℤ) : List ℤ → List ℤ
  | [] => [x]
  | y :: ys => if y ≤ x then y :: insort_ms x ys else x :: y :: ys

/-- The insertion sort over new-moon timestamps. -/
def sort_ms (xs : List ℤ) : List ℤ :=
  xs.foldl (fun acc x => insort_ms x acc) []

/-- One step of the C insertion sort on principal terms (keyed on
`instant_utc_ms`). -/
def insort_pt (x : PrincipalTerm) : List PrincipalTerm → List PrincipalTerm
  | [] => [x]
  | y :: ys =>
    if y.instant_utc_ms ≤ x.instant_utc_ms then y :: insort_pt x ys
    else x :: y :: ys

/-- The insertion sort over principal terms. -/
def sort_pts (xs : List PrincipalTerm) : List PrincipalTerm :=
  xs.foldl (fun acc x => insort_pt x acc) []

/-- The principal-term build loop: keep even solar-term indices, convert the
index to a 1..12 lunar principal index via `idx/2 + 2` folded into range. -/
def build_pts (cst_offset : ℤ) (solar_terms : List (ℤ × ℕ)) :
    List PrincipalTerm :=
  solar_terms.filterMap fun st =>
    if st.2 % 2 ≠ 0 then none
    else
      let utc_ms := st.1 * 1000
      let raw := st.2 / 2 + 2
      let ti := if 12 < raw then raw - 12 else raw
      some ⟨utc_ms, cst_date_of utc_ms cst_offset, ti⟩

/-- The month-period build loop over adjacent sorted new moons. -/
def build_periods (cst_offset : ℤ) (nm_ms : List ℤ) : List MonthPeriod :=
  (nm_ms.zip nm_ms.tail).map fun ab =>
    ⟨ab.1, ab.2, cst_date_of ab.1 cst_offset, cst_date_of ab.2 cst_offset,
     false, false, 0⟩

/-- The inner tagging loop: mark the first period whose CST range holds the
term's CST date (the C loop `break`s after the first hit). -/
def mark_first (pt : PrincipalTerm) : List MonthPeriod → List MonthPeriod
  | [] => []
  | p :: ps =>
    if within_cst_range pt.cst_date p.start_cst p.end_cst then
      { p with has_principal := true } :: ps
    else p :: mark_first pt ps

/-- The outer tagging loop over all principal terms. -/
def tag_principals (pts : List PrincipalTerm) (periods : List MonthPeriod) :
    List MonthPeriod :=
  pts.foldl (fun per pt => mark_first pt per) periods

/-- The UTC year of a principal term's instant, as the Z11 search computes
it (`utc_ms_to_date_parts` with offset 0). -/
def pt_utc_year (pt : PrincipalTerm) : ℤ :=
  (utc_ms_to_date_parts pt.instant_utc_ms 0).1.y

/-- The Z11 (Winter Solstice) search loop: break on an exact local-year
match, otherwise keep the term whose UTC year is closest to the local year
(strict improvement only, first-seen wins ties). -/
def find_z11 (local_year : ℤ) :
    List PrincipalTerm → Option PrincipalTerm → Option PrincipalTerm
  | [], best => best
  | pt :: rest, best =>
    if pt.term_index ≠ 11 then find_z11 local_year rest best
    else
      let ty := pt_utc_year pt
      if ty = local_year then some pt
      else
        match best with
        | none => find_z11 local_year rest (some pt)
        | some b =>
          if |ty - local_year| < |pt_utc_year b - local_year| then
            find_z11 local_year rest (some pt)
          else find_z11 local_year rest best

/-- The anchor instant: the found Z11 when the query is at or after it,
otherwise the first term-11 instant of the previous local year (falling back
to the found Z11). -/
def anchor_instant (timestamp_ms local_year : ℤ) (pts : List PrincipalTerm)
    (z11 : PrincipalTerm) : ℤ :=
  if z11.instant_utc_ms ≤ timestamp_ms then z11.instant_utc_ms
  else
    match pts.find? (fun pt =>
        decide (pt.term_index = 11) &&
        decide (pt_utc_year pt = local_year - 1)) with
    | some pt => pt.instant_utc_ms
    | none => z11.instant_utc_ms

/-- The forward month-number pass over periods after the Zi month: month
advances only on periods tagged with a principal term; untagged periods are
leap and repeat the current month. -/
def forward_pass (current : ℕ) : List MonthPeriod → List MonthPeriod
  | [] => []
  | p :: ps =>
    if p.has_principal then
      let c := current % 12 + 1
      { p with month_number := c, is_leap := false } :: forward_pass c ps
    else
      { p with month_number := current, is_leap := true } :: forward_pass current ps

/-- The backward month-number pass (applied to the periods before the Zi
month in reverse order): the month number decrements on every step, and a
period is leap exactly when untagged. -/
def backward_pass (current : ℕ) : List MonthPeriod → List MonthPeriod
  | [] => []
  | p :: ps =>
    let c := if 1 < current then current - 1 else 12
    if p.has_principal then
      { p with month_number := c, is_leap := false } :: backward_pass c ps
    else
      { p with month_number := c, is_leap := true } :: backward_pass c ps

/-- The shared body of `from_solar_date` up to month-number assignment.
Returns the assigned period list and the Zi-month index, or `none` at the
code's error exits (fewer than two new moons, no Z11 term, anchor outside
every period). -/
def from_solar_core (timestamp_ms tz_offset_seconds cst_offset : ℤ)
    (new_moons : List ℤ) (solar_terms : List (ℤ × ℕ)) :
    Option (List MonthPeriod × ℕ) :=
  if new_moons.length < 2 then none
  else
    let local_year := (utc_ms_to_date_parts timestamp_ms tz_offset_seconds).1.y
    let nm_ms := sort_ms (new_moons.map (fun s => s * 1000))
    let pts := sort_pts (build_pts cst_offset solar_terms)
    let periods := tag_principals pts (build_periods cst_offset nm_ms)
    match find_z11 local_year pts none with
    | none => none
    | some z11 =>
      let anchor := anchor_instant timestamp_ms local_year pts z11
      match periods.findIdx? (fun p =>
          decide (p.start_utc_ms ≤ anchor) && decide (anchor < p.end_utc_ms)) with
      | none => none
      | some zi =>
        match periods[zi]? with
        | none => none
        | some zp =>
          let pre := (backward_pass 11 (periods.take zi).reverse).reverse
          let zper := { zp with month_number := 11, is_leap := false }
          let suf := forward_pass 11 (periods.drop (zi + 1))
          some (pre ++ zper :: suf, zi)

/-- The lunar conversion result fields settled by `from_solar_date`. -/
structure LunarResult where
  lunar_year : ℤ
  lunar_month : ℕ
  is_leap : Bool
  lunar_day : ℕ
deriving DecidableEq

/-- The lunar-day computation shared by both variants: day offset of the
query date inside the target period, clamped to 1..30. -/
def lunar_day_of (target_cst : DateOnly) (tp : MonthPeriod) : ℕ :=
  let start_days := days_from_civil tp.start_cst.y tp.start_cst.m tp.start_cst.d
  let tgt_days := days_from_civil target_cst.y target_cst.m target_cst.d
  let raw := tgt_days - start_days + 1
  (if raw < 1 then 1 else if 30 < raw then 30 else raw).toNat

/-- Embeds the ports variant of `from_solar_date`
(src/ports/lunisolar-emcc/lunisolar.c): CST tagging uses the caller's
timezone, and the lunar year is the period-start UTC year except for month
12 periods starting in January or February, which subtract one. -/
def from_solar_date_ports (timestamp_ms tz_offset_seconds : ℤ)
    (new_moons : List ℤ) (solar_terms : List (ℤ × ℕ)) : Option LunarResult :=
  match from_solar_core timestamp_ms tz_offset_seconds tz_offset_seconds
      new_moons solar_terms with
  | none => none
  | some (assigned, _) =>
    let target_cst := cst_date_of timestamp_ms tz_offset_seconds
    match assigned.find? (fun p =>
        within_cst_range target_cst p.start_cst p.end_cst) with
    | none => none
    | some tp =>
      let sp := (utc_ms_to_date_parts tp.start_utc_ms 0).1
      let lunar_year :=
        if tp.month_number ≤ 11 then sp.y
        else if sp.m ≤ 2 then sp.y - 1
        else sp.y
      some ⟨lunar_year, tp.month_number, tp.is_leap, lunar_day_of target_cst tp⟩

/-- Embeds the wasm variant of `from_solar_date`
(src/wasm/lunisolar-emcc/lunisolar.c): CST tagging uses the hardcoded
offset 8*3600, and the lunar year is the period-start UTC year for months
1..10 and that year plus one otherwise. -/
def from_solar_date_wasm (timestamp_ms tz_offset_seconds : ℤ)
    (new_moons : List ℤ) (solar_terms : List (ℤ × ℕ)) : Option LunarResult :=
  match from_solar_core timestamp_ms tz_offset_seconds (8 * 3600)
      new_moons solar_terms with
  | none => none
  | some (assigned, _) =>
    let target_cst := cst_date_of timestamp_ms (8 * 3600)
    match assigned.find? (fun p =>
        within_cst_range target_cst p.start_cst p.end_cst) with
    | none => none
    | some tp =>
      let sp := (utc_ms_to_date_parts tp.start_utc_ms 0).1
      let lunar_year :=
        if 1 ≤ tp.month_number ∧ tp.month_number ≤ 10 then sp.y
        else sp.y + 1
      some ⟨lunar_year, tp.month_number, tp.is_leap, lunar_day_of target_cst tp⟩

/-! ## Pass lemmas for C1 -/

/-- Every period written by the forward pass is leap exactly when it lacks a
principal-term tag. -/
theorem forward_pass_leap (cur : ℕ) (ps : List MonthPeriod) :
    ∀ p ∈ forward_pass cur ps, p.is_leap = !p.has_principal := by
  induction ps generalizing cur with
  | nil => intro p hp; simp [forward_pass] at hp
  | cons q qs ih =>
    intro p hp
    unfold forward_pass at hp
    by_cases hq : q.has_principal
    · rw [if_pos hq] at hp
      rcases List.mem_cons.mp hp with h | h
      · subst h; simp [hq]
      · exact ih _ p h
    · rw [if_neg hq] at hp
      rcases List.mem_cons.mp hp with h | h
      · subst h; simp at hq; simp [hq]
      · exact ih _ p h

/-- Every period written by the backward pass is leap exactly when it lacks
a principal-term tag. -/
theorem backward_pass_leap (cur : ℕ) (ps : List MonthPeriod) :
    ∀ p ∈ backward_pass cur ps, p.is_leap = !p.has_principal := by
  induction ps generalizing cur with
  | nil => intro p hp; simp [backward_pass] at hp
  | cons q qs ih =>
    intro p hp
    unfold backward_pass at hp
    simp only [] at hp
    by_cases hq : q.has_principal
    · rw [if_pos hq] at hp
      rcases List.mem_cons.mp hp with h | h
      · subst h; simp [hq]
      · exact ih _ p h
    · rw [if_neg hq] at hp
      rcases List.mem_cons.mp hp with h | h
      · subst h; simp at hq; simp [hq]
      · exact ih _ p h

/-- The forward pass preserves list length. -/
theorem forward_pass_length (cur : ℕ) (ps : List MonthPeriod) :
    (forward_pass cur ps).length = ps.length := by
  induction ps generalizing cur with
  | nil => rfl
  | cons q qs ih =>
    unfold forward_pass
    by_cases hq : q.has_principal
    · rw [if_pos hq]; simp [ih]
    · rw [if_neg hq]; simp [ih]

/-- The backward pass preserves list length. -/
theorem backward_pass_length (cur : ℕ) (ps : List MonthPeriod) :
    (backward_pass cur ps).length = ps.length := by
  induction ps generalizing cur with
  | nil => rfl
  | cons q qs ih =>
    unfold backward_pass
    simp only []
    by_cases hq : q.has_principal
    · rw [if_pos hq]; simp [ih]
    · rw [if_neg hq]; simp [ih]

/-- C1 (amended): whenever `from_solar_core` succeeds, the Zi-index entry of
the assigned list is month 11 and not leap, and every other assigned period
is leap exactly when it was not tagged as containing a principal term.  (The
Zi period itself can be untagged — its principal term's CST date may fall on
the period-end date — yet it is never leap, so the untagged-iff-leap reading
holds only away from the Zi index.) -/
theorem C1_month_assignment (timestamp_ms tz cst_offset : ℤ)
    (new_moons : List ℤ) (solar_terms : List (ℤ × ℕ))
    (assigned : List MonthPeriod) (zi : ℕ)
    (hcore : from_solar_core timestamp_ms tz cst_offset new_moons solar_terms =
      some (assigned, zi)) :
    (∃ zp, assigned[zi]? = some zp ∧ zp.month_number = 11 ∧ zp.is_leap = false) ∧
    (∀ i, i ≠ zi → ∀ p, assigned[i]? = some p → p.is_leap = !p.has_principal) := by
  unfold from_solar_core at hcore
  split at hcore
  · exact absurd hcore (by simp)
  simp only [] at hcore
  split at hcore
  · exact absurd hcore (by simp)
  rename_i z11 hz11
  split at hcore
  · exact absurd hcore (by simp)
  rename_i zi0 hzi0
  split at hcore
  · exact absurd hcore (by simp)
  rename_i zp hzp
  rw [Option.some_inj, Prod.mk.injEq] at hcore
  obtain ⟨hassigned, hzi⟩ := hcore
  subst hzi
  set periods := tag_principals
      (sort_pts (build_pts cst_offset solar_terms))
      (build_periods cst_offset
        (sort_ms (new_moons.map (fun s => s * 1000)))) with hperiods
  have hzilen : zi0 < periods.length := by
    by_contra hge
    rw [List.getElem?_eq_none (by omega)] at hzp
    exact absurd hzp (by simp)
  have hprelen :
      ((backward_pass 11 (periods.take zi0).reverse).reverse).length = zi0 := by
    rw [List.length_reverse, backward_pass_length, List.length_reverse,
      List.length_take]
    omega
  constructor
  · refine ⟨{ zp with month_number := 11, is_leap := false }, ?_, rfl, rfl⟩
    rw [← hassigned, List.getElem?_append_right (by omega), hprelen]
    simp
  · intro i hi p hp
    rw [← hassigned] at hp
    rcases Nat.lt_or_ge i zi0 with hlt | hge
    · rw [List.getElem?_append_left (by omega)] at hp
      have hmem : p ∈ (backward_pass 11 (periods.take zi0).reverse).reverse :=
        List.getElem?_mem hp
      rw [List.mem_reverse] at hmem
      exact backward_pass_leap _ _ p hmem
    · have hgt : zi0 < i := by omega
      rw [List.getElem?_append_right (by omega), hprelen] at hp
      have h1 : 1 ≤ i - zi0 := by omega
      rw [List.getElem?_cons, if_neg (by omega)] at hp
      have hmem : p ∈ forward_pass 11 (periods.drop (zi0 + 1)) :=
        List.getElem?_mem hp
      exact forward_pass_leap _ _ p hmem


/-- C1 refuted as stated: on this accepted input (three new moons, one
Winter Solstice term whose CST date falls on its period's end date) the
conversion succeeds, yet the Zi period (index 0) is not leap while also not
tagged with a principal term, so "leap iff no principal term" fails on an
assigned period. -/
theorem C1_counterexample :
    (from_solar_core 2613600000 0 0 [0, 2635200, 5184000]
        [(2613600, 18)]).map
      (fun r => (r.1.map (fun p => (p.month_number, p.is_leap, p.has_principal)), r.2)) =
      some ([(11, false, false), (12, false, true)], 0) ∧
    (from_solar_date_ports 2613600000 0 [0, 2635200, 5184000]
        [(2613600, 18)]).isSome = true := by
  exact ⟨by decide, by decide⟩

/-- Witness: the amended C1 theorem applied to a concrete accepted input
(four new moons, three principal terms, every period tagged). -/
theorem C1_month_assignment_witness :
    (∃ zp, ([⟨0, 2592000000, ⟨1970, 1, 1⟩, ⟨1970, 1, 31⟩, true, false, 11⟩,
        ⟨2592000000, 5184000000, ⟨1970, 1, 31⟩, ⟨1970, 3, 2⟩, true, false, 12⟩,
        ⟨5184000000, 7776000000, ⟨1970, 3, 2⟩, ⟨1970, 4, 1⟩, true, false, 1⟩] :
          List MonthPeriod)[(0 : ℕ)]? = some zp ∧
      zp.month_number = 11 ∧ zp.is_leap = false) ∧
    (∀ i, i ≠ 0 →
      ∀ p, ([⟨0, 2592000000, ⟨1970, 1, 1⟩, ⟨1970, 1, 31⟩, true, false, 11⟩,
        ⟨2592000000, 5184000000, ⟨1970, 1, 31⟩, ⟨1970, 3, 2⟩, true, false, 12⟩,
        ⟨5184000000, 7776000000, ⟨1970, 3, 2⟩, ⟨1970, 4, 1⟩, true, false, 1⟩] :
          List MonthPeriod)[i]? = some p → p.is_leap = !p.has_principal) :=
  C1_month_assignment 6523200000 28800 28800 [0, 2592000, 5184000, 7776000]
    [(1296000, 18), (3888000, 20), (6480000, 22)] _ 0 (by decide)

/-- C8 (amended): with the ports variant run at the wasm variant's fixed
CST offset (tz = 28800 s), whenever both variants succeed and the assigned
lunar month is in 1..10, they agree on the lunar month and the lunar year.
(Month 11 always differs by one year, month 12 by one or two.) -/
theorem C8_lunar_year_agreement (ts : ℤ) (nm : List ℤ) (sts : List (ℤ × ℕ))
    (r1 r2 : LunarResult)
    (h1 : from_solar_date_ports ts 28800 nm sts = some r1)
    (h2 : from_solar_date_wasm ts 28800 nm sts = some r2)
    (hm1 : 1 ≤ r1.lunar_month) (hm10 : r1.lunar_month ≤ 10) :
    r1.lunar_month = r2.lunar_month ∧ r1.lunar_year = r2.lunar_year := by
  unfold from_solar_date_ports at h1
  unfold from_solar_date_wasm at h2
  have h8 : (8 * 3600 : ℤ) = 28800 := by norm_num
  rw [h8] at h2
  rcases hc : from_solar_core ts 28800 28800 nm sts with _ | ⟨assigned, zi⟩ <;>
    rw [hc] at h1 h2
  · exact absurd h1 (by simp)
  simp only [] at h1 h2
  rcases hf : assigned.find? (fun p =>
      within_cst_range (cst_date_of ts 28800) p.start_cst p.end_cst) with _ | tp <;>
    rw [hf] at h1 h2
  · exact absurd h1 (by simp)
  simp only [Option.some_inj] at h1 h2
  subst h1
  subst h2
  refine ⟨rfl, ?_⟩
  simp only [] at hm1 hm10 ⊢
  split_ifs <;> omega

/-- C8 refuted as stated: a query in the Zi month (lunar month 11, inside
the claim's 1..11 range) where the ports variant answers lunar year 1970
and the wasm variant answers 1971. -/
theorem C8_counterexample :
    from_solar_date_ports 1339200000 28800 [0, 2592000, 5184000]
        [(1296000, 18)] = some ⟨1970, 11, false, 16⟩ ∧
    from_solar_date_wasm 1339200000 28800 [0, 2592000, 5184000]
        [(1296000, 18)] = some ⟨1971, 11, false, 16⟩ := by
  exact ⟨by decide, by decide⟩

/-- Witness: the amended C8 theorem applied to a concrete input whose
assigned month is 1. -/
theorem C8_lunar_year_agreement_witness :
    ((⟨1970, 1, false, 16⟩ : LunarResult).lunar_month =
        (⟨1970, 1, false, 16⟩ : LunarResult).lunar_month ∧
      (⟨1970, 1, false, 16⟩ : LunarResult).lunar_year =
        (⟨1970, 1, false, 16⟩ : LunarResult).lunar_year) :=
  C8_lunar_year_agreement 6523200000 [0, 2592000, 5184000, 7776000]
    [(1296000, 18), (3888000, 20), (6480000, 22)] ⟨1970, 1, false, 16⟩
    ⟨1970, 1, false, 16⟩ (by decide) (by decide) (by decide) (by decide)

/-! ## Ephemeris scan loops (src/wasm/lunisolar-emcc/ephemeris.c 74-97 and
118-144).  The astronomical samplers `elongation` and
`floor(sun_lon(jd)/15)` come from the Swiss Ephemeris library, which is not
part of this repository; the scan loops are embedded over them as oracle
parameters (`elong`, `sector`).  Both loops advance `jd` one Julian day per
iteration, so a fuel argument of `jd_end - jd` days drives the recursion:
fuel 0 is exactly the loop exit `jd >= jd_end`. -/

/-- The `compute_new_moons` scan loop with the capacity guard
(`count < max_count` conjoined into the loop condition). -/
def nm_loop (elong : ℤ → ℤ) : ℕ → ℤ → ℤ → ℕ → ℕ → ℕ
  | 0, _, _, count, _ => count
  | fuel + 1, jd, prev, count, max_count =>
    if count < max_count then
      let curr := elong (jd + 1)
      nm_loop elong fuel (jd + 1) curr
        (if prev < 0 ∧ 0 ≤ curr then count + 1 else count) max_count
    else count

/-- The same scan with no capacity bound: how many sign crossings the
window actually holds. -/
def nm_loop_free (elong : ℤ → ℤ) : ℕ → ℤ → ℤ → ℕ → ℕ
  | 0, _, _, count => count
  | fuel + 1, jd, prev, count =>
    let curr := elong (jd + 1)
    nm_loop_free elong fuel (jd + 1) curr
      (if prev < 0 ∧ 0 ≤ curr then count + 1 else count)

/-- Embeds `compute_new_moons`' return value (the event count; the C
function returns it as a nonnegative `int`, with no error path). -/
def compute_new_moons_count (elong : ℤ → ℤ) (jd0 jd_end : ℤ)
    (max_count : ℕ) : ℤ :=
  nm_loop elong (jd_end - jd0).toNat jd0 (elong jd0) 0 max_count

/-- The number of new moons the window holds, capacity aside. -/
def new_moons_in_window (elong : ℤ → ℤ) (jd0 jd_end : ℤ) : ℕ :=
  nm_loop_free elong (jd_end - jd0).toNat jd0 (elong jd0) 0

/-- The `compute_solar_terms` scan loop: an event on every change of the
24-sector index. -/
def st_loop (sector : ℤ → ℕ) : ℕ → ℤ → ℕ → ℕ → ℕ → ℕ
  | 0, _, _, count, _ => count
  | fuel + 1, jd, prev, count, max_count =>
    if count < max_count then
      let curr := sector (jd + 1) % 24
      st_loop sector fuel (jd + 1) curr
        (if curr ≠ prev then count + 1 else count) max_count
    else count

/-- The solar-term scan with no capacity bound. -/
def st_loop_free (sector : ℤ → ℕ) : ℕ → ℤ → ℕ → ℕ → ℕ
  | 0, _, _, count => count
  | fuel + 1, jd, prev, count =>
    let curr := sector (jd + 1) % 24
    st_loop_free sector fuel (jd + 1) curr
      (if curr ≠ prev then count + 1 else count)

/-- Embeds `compute_solar_terms`' return value. -/
def compute_solar_terms_count (sector : ℤ → ℕ) (jd0 jd_end : ℤ)
    (max_count : ℕ) : ℤ :=
  st_loop sector (jd_end - jd0).toNat jd0 (sector jd0 % 24) 0 max_count

/-- The number of solar terms the window holds, capacity aside. -/
def solar_terms_in_window (sector : ℤ → ℕ) (jd0 jd_end : ℤ) : ℕ :=
  st_loop_free sector (jd_end - jd0).toNat jd0 (sector jd0 % 24) 0

/-- The unbounded scan's count never drops below its accumulator. -/
theorem nm_loop_free_ge (elong : ℤ → ℤ) (fuel : ℕ) :
    ∀ jd prev count, count ≤ nm_loop_free elong fuel jd prev count := by
  induction fuel with
  | zero => intro jd prev count; simp [nm_loop_free]
  | succ f ih =>
    intro jd prev count
    unfold nm_loop_free
    refine le_trans ?_ (ih (jd + 1) (elong (jd + 1)) _)
    split_ifs <;> omega

/-- The capped scan equals the unbounded scan clamped at capacity. -/
theorem nm_loop_eq_min (elong : ℤ → ℤ) (fuel : ℕ) :
    ∀ jd prev count max_count, count ≤ max_count →
      nm_loop elong fuel jd prev count max_count =
        min (nm_loop_free elong fuel jd prev count) max_count := by
  induction fuel with
  | zero =>
    intro jd prev count max_count h
    simp [nm_loop, nm_loop_free]
    omega
  | succ f ih =>
    intro jd prev count max_count h
    unfold nm_loop nm_loop_free
    by_cases hlt : count < max_count
    · rw [if_pos hlt]
      apply ih
      split_ifs <;> omega
    · rw [if_neg hlt]
      simp only []
      have hge := nm_loop_free_ge elong f (jd + 1) (elong (jd + 1))
        (if prev < 0 ∧ 0 ≤ elong (jd + 1) then count + 1 else count)
      split_ifs at hge ⊢ <;> omega

/-- The unbounded solar-term scan's count never drops below its
accumulator. -/
theorem st_loop_free_ge (sector : ℤ → ℕ) (fuel : ℕ) :
    ∀ jd prev count, count ≤ st_loop_free sector fuel jd prev count := by
  induction fuel with
  | zero => intro jd prev count; simp [st_loop_free]
  | succ f ih =>
    intro jd prev count
    unfold st_loop_free
    refine le_trans ?_ (ih (jd + 1) (sector (jd + 1) % 24) _)
    split_ifs <;> omega

/-- The capped solar-term scan equals the unbounded scan clamped at
capacity. -/
theorem st_loop_eq_min (sector : ℤ → ℕ) (fuel : ℕ) :
    ∀ jd prev count max_count, count ≤ max_count →
      st_loop sector fuel jd prev count max_count =
        min (st_loop_free sector fuel jd prev count) max_count := by
  induction fuel with
  | zero =>
    intro jd prev count max_count h
    simp [st_loop, st_loop_free]
    omega
  | succ f ih =>
    intro jd prev count max_count h
    unfold st_loop st_loop_free
    by_cases hlt : count < max_count
    · rw [if_pos hlt]
      apply ih
      split_ifs <;> omega
    · rw [if_neg hlt]
      simp only []
      have hge := st_loop_free_ge sector f (jd + 1) (sector (jd + 1) % 24)
        (if sector (jd + 1) % 24 ≠ prev then count + 1 else count)
      split_ifs at hge ⊢ <;> omega

/-- C7 (amended): both ephemeris scanners silently truncate.  Their return
value is always the window's event count clamped to `max_count` — in
particular it is never negative, so capacity overflow is not reported as an
error. -/
theorem C7_scan_truncation (elong : ℤ → ℤ) (sector : ℤ → ℕ)
    (jd0 jd_end : ℤ) (max_count : ℕ) :
    compute_new_moons_count elong jd0 jd_end max_count =
      min (new_moons_in_window elong jd0 jd_end) max_count ∧
    compute_solar_terms_count sector jd0 jd_end max_count =
      min (solar_terms_in_window sector jd0 jd_end) max_count ∧
    0 ≤ compute_new_moons_count elong jd0 jd_end max_count ∧
    0 ≤ compute_solar_terms_count sector jd0 jd_end max_count := by
  refine ⟨?_, ?_, ?_, ?_⟩
  · unfold compute_new_moons_count new_moons_in_window
    rw [nm_loop_eq_min elong _ _ _ _ _ (Nat.zero_le _)]
  · unfold compute_solar_terms_count solar_terms_in_window
    rw [st_loop_eq_min sector _ _ _ _ _ (Nat.zero_le _)]
  · unfold compute_new_moons_count
    exact Int.natCast_nonneg _
  · unfold compute_solar_terms_count
    exact Int.natCast_nonneg _

/-- C7 refuted as stated: a window holding three sign crossings (and five
sector changes) scanned with a smaller capacity returns the capacity —
the first events, silently truncated — and not an error value. -/
theorem C7_counterexample :
    new_moons_in_window (fun n => if n % 2 = 0 then -1 else 1) 0 6 = 3 ∧
    compute_new_moons_count (fun n => if n % 2 = 0 then -1 else 1) 0 6 2 = 2 ∧
    solar_terms_in_window (fun n => n.toNat) 0 5 = 5 ∧
    compute_solar_terms_count (fun n => n.toNat) 0 5 3 = 3 := by
  refine ⟨?_, ?_, ?_, ?_⟩ <;> decide

end Lunisolar
